import Mathlib

/-!
Verification development for the financial-data normalization and
derived-metrics engine of the TIKR scraper (`tikr_scraper/tikr_scraper.py`).

The Python code is embedded shallowly:

* Python `float` values are modelled as `ℚ`.  All numeric inputs appearing
  in the verified properties are exact decimal values, for which rational
  arithmetic coincides with IEEE-754 evaluation.
* Python dictionaries (statement rows, spreadsheet cell maps) are modelled
  as association lists with replace-or-append insertion, which preserves
  the insertion order semantics of `dict`.
* Fallible operations (`float(...)` conversions that may raise
  `ValueError`) return `Option`; an exception that the Python code catches
  corresponds to a `none` that the embedding absorbs at the same point.
-/

namespace TikrScraper

/-- A value stored in a `StatementRow` dictionary: a number, the
empty-string sentinel `''` used for unavailable fields, or another string
(such as a calendar-year label). -/
inductive FieldVal where
  | num (q : ℚ)
  | empty
  | str (s : String)
  deriving DecidableEq

/-- Python truthiness of a row value: `0.0` and `''` are falsy,
every other number and every nonempty string is truthy. -/
def truthy : FieldVal → Bool
  | .num q => decide (q ≠ 0)
  | .empty => false
  | .str s => decide (s ≠ "")

/-- Association-list lookup, first binding wins (models `dict` access). -/
def alistFind? {κ β : Type} [DecidableEq κ] : List (κ × β) → κ → Option β
  | [], _ => none
  | (k', v) :: rest, k => if k' = k then some v else alistFind? rest k

/-- Association-list insertion: replace the first binding of the key in
place, or append a new binding (models Python `d[k] = v`). -/
def alistInsert {κ β : Type} [DecidableEq κ] : List (κ × β) → κ → β → List (κ × β)
  | [], k, v => [(k, v)]
  | (k', v') :: rest, k, v =>
    if k' = k then (k, v) :: rest else (k', v') :: alistInsert rest k v

/-- A normalized statement row: display-name ↦ value, plus a `year` key. -/
abbrev Row := List (String × FieldVal)

/-- Digit-string to natural number; `none` on any non-digit character. -/
def digitsToNat? (cs : List Char) : Option ℕ :=
  cs.foldl
    (fun acc c =>
      acc.bind fun n => if c.isDigit then some (n * 10 + (c.toNat - 48)) else none)
    (some 0)

/-- Split a character list at every dot, like Python `t.split('.')`
(always returns at least one part). -/
def splitDot : List Char → List (List Char)
  | [] => [[]]
  | c :: rest =>
    let r := splitDot rest
    if c = '.' then [] :: r else (c :: r.headD []) :: r.tail

/-- Model of Python `float(s)` restricted to plain decimal literals
(optional leading minus, digits, optional fractional part).  Every string
that the verified properties feed to `float` is of this shape; scientific
notation, leading `+`, surrounding whitespace and the non-finite literals
are outside the model.  `none` models a raised `ValueError`. -/
def parseDecimal (s : String) : Option ℚ :=
  let signBody : ℚ × List Char :=
    match s.data with
    | '-' :: rest => (-1, rest)
    | cs => (1, cs)
  let sign := signBody.1
  match splitDot signBody.2 with
  | [a] =>
    if a.isEmpty then none
    else (digitsToNat? a).map fun n => sign * (n : ℚ)
  | [a, b] =>
    if a.isEmpty && b.isEmpty then none
    else
      match digitsToNat? a, digitsToNat? b with
      | some na, some nb => some (sign * ((na : ℚ) + (nb : ℚ) / 10 ^ b.length))
      | _, _ => none
  | _ => none

/-- Python `float(v)` applied to a row value: numbers pass through, the
empty string raises (`none`), other strings are parsed. -/
def fieldToRat : FieldVal → Option ℚ
  | .num q => some q
  | .empty => none
  | .str s => parseDecimal s

/-- Floor of a rational, by flooring integer division of numerator by
denominator (kept elementary so that concrete instances reduce by
`decide`). -/
def ratFloor (q : ℚ) : ℤ := Int.fdiv q.num (q.den : ℤ)

/-- Round-half-to-even to an integer, as Python's `round` does. -/
def roundHalfEven (q : ℚ) : ℤ :=
  let f := ratFloor q
  let r : ℚ := q - (f : ℚ)
  if r < 1 / 2 then f
  else if 1 / 2 < r then f + 1
  else if f % 2 = 0 then f else f + 1

/-- Python `round(q, nd)`: round to `nd` decimal places, ties to even.
On the exact decimal values arising in the verified properties this
agrees with Python's float `round`. -/
def pyRound (nd : ℕ) (q : ℚ) : ℚ :=
  (roundHalfEven (q * 10 ^ nd) : ℚ) / 10 ^ nd

/-! ## Raw Record Normalizer (`_process_financial_data` and helpers) -/

/-- One observation of the raw upstream feed
(`{financialperiodid, dataitemid, dataitemvalue}`). -/
structure RawDataPoint where
  financialperiodid : ℤ
  dataitemid : ℤ
  dataitemvalue : String
  deriving DecidableEq

/-- `[item for item in fiscal_year_data if item['dataitemid'] == id][0]`:
the first data point of the period with the given identifier, if any. -/
def firstMatch (raw : List RawDataPoint) (id : ℤ) : Option RawDataPoint :=
  (raw.filter fun item => item.dataitemid == id).head?

/-- `_calculate_free_cash_flow`: if both cash-from-operations (identifier
2006) and capital expenditure (identifier 2021) are present in the period,
store their sum under `"Free Cash Flow"`; otherwise leave the row
untouched.  A `none` result models an uncaught `ValueError` from
`float(...)` on a malformed raw value. -/
def calcFreeCashFlow (raw : List RawDataPoint) (row : Row) : Option Row :=
  match firstMatch raw 2006, firstMatch raw 2021 with
  | some cashOps, some capex =>
    match parseDecimal cashOps.dataitemvalue, parseDecimal capex.dataitemvalue with
    | some a, some b => some (alistInsert row "Free Cash Flow" (.num (a + b)))
    | _, _ => none
  | _, _ => some row

/-- `_calculate_fcf_margins`: if the row already has a Free Cash Flow
value and the income statement's `Revenues` identifier resolves to a
nonzero value in this period, store `fcf / revenue * 100`. -/
def calcFcfMargins (raw : List RawDataPoint) (revenueId : ℤ) (row : Row) : Option Row :=
  match alistFind? row "Free Cash Flow" with
  | none => some row
  | some fv =>
    match firstMatch raw revenueId with
    | none => some row
    | some rv =>
      match parseDecimal rv.dataitemvalue, fieldToRat fv with
      | some revenue, some fcf =>
        if revenue ≠ 0 then
          some (alistInsert row "% Free Cash Flow Margins" (.num (fcf / revenue * 100)))
        else some row
      | _, _ => none

/-- One iteration of the column loop of `_process_financial_data`: the
state is the row built so far together with the access-denied count, and
`kv` is one `(display-name, identifier)` schema entry. -/
def processColumn (raw : List RawDataPoint) (revenueId : ℤ)
    (acc : Row × ℕ) (kv : String × ℤ) : Option (Row × ℕ) :=
  if kv.1 = "Free Cash Flow" then
    (calcFreeCashFlow raw acc.1).map fun r => (r, acc.2)
  else if kv.1 = "% Free Cash Flow Margins" ∧ (alistFind? acc.1 "Free Cash Flow").isSome then
    (calcFcfMargins raw revenueId acc.1).map fun r => (r, acc.2)
  else
    match firstMatch raw kv.2 with
    | some item =>
      if item.dataitemvalue = "1.11" then
        some (alistInsert acc.1 kv.1 .empty, acc.2 + 1)
      else if kv.1 = "Income Tax Expense" then
        (parseDecimal item.dataitemvalue).map fun q =>
          (alistInsert acc.1 kv.1 (.num (-q)), acc.2)
      else
        (parseDecimal item.dataitemvalue).map fun q =>
          (alistInsert acc.1 kv.1 (.num q), acc.2)
    | none => some (alistInsert acc.1 kv.1 .empty, acc.2)

/-- The full column loop for one `(statement kind, fiscal period)` pair:
start from `{'year': calendaryear}` and a zero denial count, and process
every schema column in order.  `schema` is the statement's ordered
display-name ↦ identifier mapping and `revenueId` is the income
statement's `Revenues` identifier (used by the FCF-margin computation). -/
def buildRow (schema : List (String × ℤ)) (raw : List RawDataPoint)
    (year : FieldVal) (revenueId : ℤ) : Option (Row × ℕ) :=
  List.foldlM (processColumn raw revenueId) ([("year", year)], 0) schema

/-- Row retention: `if access_denied_count <= 10:` append the row,
otherwise drop it.  `some none` means the row was built and dropped;
`some (some row)` means it was appended. -/
def processStatement (schema : List (String × ℤ)) (raw : List RawDataPoint)
    (year : FieldVal) (revenueId : ℤ) : Option (Option Row) :=
  (buildRow schema raw year revenueId).map fun rc =>
    if rc.2 ≤ 10 then some rc.1 else none

/-! ## Cross-Period Metrics Engine: year-over-year pass
(`_calculate_yoy_metrics`) -/

/-- Does the list start with the given pattern? -/
def matchesAt (pat l : List Char) : Bool := l.take pat.length == pat

/-- Substring membership over character lists (Python `pat in s`). -/
def hasSubstr (pat : List Char) : List Char → Bool
  | [] => pat.isEmpty
  | c :: rest => matchesAt pat (c :: rest) || hasSubstr pat rest

/-- Python `'YoY' in column` (substring test). -/
def containsYoY (s : String) : Bool := hasSubstr "YoY".data s.data

/-- Left-to-right, non-overlapping replacement of a nonempty pattern, with
recursion fuel (the input length always suffices): Python
`s.replace(pat, rep)`. -/
def replaceAllGo (pat rep : List Char) : ℕ → List Char → List Char
  | 0, l => l
  | _ + 1, [] => []
  | fuel + 1, c :: rest =>
    if matchesAt pat (c :: rest) && !pat.isEmpty then
      rep ++ replaceAllGo pat rep fuel ((c :: rest).drop pat.length)
    else c :: replaceAllGo pat rep fuel rest

/-- Python `column.replace(' YoY', '')`: strip every occurrence of the
`" YoY"` pattern from the key. -/
def stripYoY (col : String) : String :=
  String.mk (replaceAllGo " YoY".data [] col.data.length col.data)

/-- The body of the inner column loop of `_calculate_yoy_metrics` for one
key of the current row.  `prev` is `data_list[idx - 1]` (already processed
in place) and `acc` is the current row in its present mutation state.  All
failure modes (`ValueError`, `TypeError`, `ZeroDivisionError`) are
swallowed, leaving the row unchanged, exactly as the `except: continue`
does. -/
def yoyStep (prev : Row) (acc : Row) (col : String) : Row :=
  if containsYoY col then
    let base := stripYoY col
    match alistFind? acc base, alistFind? prev base with
    | some cv, some pv =>
      if truthy cv && truthy pv then
        match fieldToRat cv, fieldToRat pv with
        | some current, some old =>
          if old ≠ 0 then
            alistInsert acc col (.num (pyRound 2 ((current - old) / |old| * 100)))
          else acc
        | _, _ => acc
      else acc
    | _, _ => acc
  else acc

/-- The inner loop of `_calculate_yoy_metrics` for one row with guard
`idx > 0` already satisfied: iterate over the row's keys (Python iterates
the dict's keys; the loop only updates values of existing keys, so the
key sequence is the row's original key list). -/
def yoyRow (prev cur : Row) : Row :=
  (cur.map Prod.fst).foldl (yoyStep prev) cur

/-- Processing of the rows after the first: each row except the final one
is updated in place from its (already updated) predecessor; the final row
is excluded by the `data_list[:-1]` slice and left untouched. -/
def yoyGo (prev : Row) : List Row → List Row
  | [] => []
  | [r] => [r]
  | r :: rest =>
    let r' := yoyRow prev r
    r' :: yoyGo r' rest

/-- `_calculate_yoy_metrics` restricted to one statement kind's row list.
The row at index 0 is iterated but never modified (the `idx > 0` guard),
and the last row is never iterated (the `[:-1]` slice). -/
def calculate_yoy_metrics : List Row → List Row
  | [] => []
  | r0 :: rest => r0 :: yoyGo r0 rest

/-! ## Cross-Period Metrics Engine: Sales-to-Capital
(`calculate_sales_to_capital`) -/

/-- The result dictionary of `calculate_sales_to_capital`, with the
`components` sub-dictionary flattened into the structure. -/
structure STCResult where
  sales_to_capital_ratio : ℚ
  net_revenue : ℚ
  net_invested_capital : ℚ
  latest_year : FieldVal
  previous_year : FieldVal
  latest_revenue : ℚ
  previous_revenue : ℚ
  latest_invested_capital : ℚ
  previous_invested_capital : ℚ
  latest_debt : ℚ
  latest_equity : ℚ
  latest_cash : ℚ
  previous_debt : ℚ
  previous_equity : ℚ
  previous_cash : ℚ
  deriving DecidableEq

/-- `revenue_keys` of `calculate_sales_to_capital`. -/
def revenue_keys : List String :=
  ["Total Revenues", "Revenues", "Revenue", "Net Sales", "Sales"]

/-- `debt_keys` of `calculate_sales_to_capital`. -/
def debt_keys : List String :=
  ["Total Debt ", "Total Debt", "Long-Term Debt ", "Long-Term Debt",
   "Short-Term Debt", "Current Debt", "Total Liabilities ", "Total Liabilities",
   "Current Portion of Long-Term Debt"]

/-- `equity_keys` of `calculate_sales_to_capital`. -/
def equity_keys : List String :=
  ["Total Equity ", "Total Equity", "Total Common Equity ", "Total Common Equity",
   "Shareholders Equity", "Stockholders Equity", "Total Shareholders Equity",
   "Owners Equity", "Total Preferred Equity ", "Total Preferred Equity"]

/-- `cash_keys` of `calculate_sales_to_capital`. -/
def cash_keys : List String :=
  ["Cash And Equivalents", "Cash and Cash Equivalents", "Cash",
   "Total Cash And Short Term Investments ", "Total Cash And Short Term Investments",
   "Liquid Assets"]

/-- The alias scan shared by the inline revenue loops and
`get_financial_value`: the first key that is present in the row with a
truthy value (`key in d and d[key] and d[key] != ''`) wins. -/
def firstTruthyKey (row : Row) : List String → Option FieldVal
  | [] => none
  | k :: rest =>
    match alistFind? row k with
    | some v => if truthy v then some v else firstTruthyKey row rest
    | none => firstTruthyKey row rest

/-- `get_financial_value(data_dict, possible_keys)`: the winning alias's
value converted by `float`.  In the Python code a `ValueError` raised by
`float` on the winning value escapes to the enclosing `except`, which
returns `None` for the whole calculation — collapsing it with the
key-not-found `None` here is final-result faithful. -/
def get_financial_value (row : Row) (ks : List String) : Option ℚ :=
  (firstTruthyKey row ks).bind fieldToRat

/-- The latest and previous rows, `(data[-2], data[-1])`.  `none` exactly
when the list has fewer than 2 rows, which is the code's
`len(...) < 2` early-`None` guard. -/
def last2 (l : List Row) : Option (Row × Row) :=
  match l.reverse with
  | latest :: prev :: _ => some (prev, latest)
  | _ => none

/-- `calculate_sales_to_capital` over the retained income and
balance-sheet row lists.  `none` models every `return None` path: fewer
than two retained rows in either list, an unresolvable revenue or
debt/equity/cash component, a zero net-invested-capital denominator, or a
caught conversion error. -/
def calculate_sales_to_capital (income balance : List Row) : Option STCResult := do
  let (previous_income, latest_income) ← last2 income
  let (previous_balance, latest_balance) ← last2 balance
  let latest_revenue ← get_financial_value latest_income revenue_keys
  let previous_revenue ← get_financial_value previous_income revenue_keys
  let net_revenue := latest_revenue - previous_revenue
  let latest_debt ← get_financial_value latest_balance debt_keys
  let latest_equity ← get_financial_value latest_balance equity_keys
  let latest_cash ← get_financial_value latest_balance cash_keys
  let previous_debt ← get_financial_value previous_balance debt_keys
  let previous_equity ← get_financial_value previous_balance equity_keys
  let previous_cash ← get_financial_value previous_balance cash_keys
  let latest_invested_capital := latest_debt + latest_equity - latest_cash
  let previous_invested_capital := previous_debt + previous_equity - previous_cash
  let net_invested_capital := latest_invested_capital - previous_invested_capital
  if net_invested_capital = 0 then none
  else
    some
      { sales_to_capital_ratio := pyRound 4 (net_revenue / net_invested_capital)
        net_revenue := pyRound 2 net_revenue
        net_invested_capital := pyRound 2 net_invested_capital
        latest_year := (alistFind? latest_income "year").getD (.str "Unknown")
        previous_year := (alistFind? previous_income "year").getD (.str "Unknown")
        latest_revenue := pyRound 2 latest_revenue
        previous_revenue := pyRound 2 previous_revenue
        latest_invested_capital := pyRound 2 latest_invested_capital
        previous_invested_capital := pyRound 2 previous_invested_capital
        latest_debt := pyRound 2 latest_debt
        latest_equity := pyRound 2 latest_equity
        latest_cash := pyRound 2 latest_cash
        previous_debt := pyRound 2 previous_debt
        previous_equity := pyRound 2 previous_equity
        previous_cash := pyRound 2 previous_cash }

/-! ## Workbook Assembler: year headers of a statement sheet
(`export_to_excel`) -/

/-- The year column headers of one assembled statement sheet:
`years = [item['year'] for item in df_data]; years[-1] = 'LTM'`.
The source rows are read but never modified.  (Rows produced by the
normalizer always carry a `year` key, so the `getD` default is inert.) -/
def exportHeaderYears (rows : List Row) : List FieldVal :=
  let years := rows.map fun r => (alistFind? r "year").getD .empty
  if years.isEmpty then years else years.dropLast ++ [.str "LTM"]

/-! ## Template Projector (`_update_valuation_base_fields`) -/

/-- A spreadsheet cell value: text or a number.  A cross-sheet formula is
stored as its text. -/
inductive CellVal where
  | s (text : String)
  | n (q : ℚ)
  deriving DecidableEq

/-- An openpyxl worksheet: a cell map keyed by `(row, column)` (both
1-based) together with its `max_row` / `max_column` dimensions. -/
structure Sheet where
  cells : List ((ℕ × ℕ) × CellVal)
  maxRow : ℕ
  maxCol : ℕ
  deriving DecidableEq

/-- Read a cell's value (`none` models an empty cell / `None`). -/
def Sheet.get (ws : Sheet) (rc : ℕ × ℕ) : Option CellVal :=
  alistFind? ws.cells rc

/-- Assign a cell's value; openpyxl grows the sheet dimensions when a
cell beyond them is written. -/
def Sheet.setCell (ws : Sheet) (rc : ℕ × ℕ) (v : CellVal) : Sheet :=
  { cells := alistInsert ws.cells rc v
    maxRow := max ws.maxRow rc.1
    maxCol := max ws.maxCol rc.2 }

/-- Python `str.strip()`: drop leading and trailing whitespace. -/
def trimChars (cs : List Char) : List Char :=
  ((cs.dropWhile Char.isWhitespace).reverse.dropWhile Char.isWhitespace).reverse

/-- `if cell_value and str(cell_value).strip() == row_name`: the truthy
test followed by the trimmed text comparison.  The row labels this code
compares against all contain letters, which the text of a numeric cell
never does, so numeric cells never match. -/
def cellMatchesLabel (v : Option CellVal) (name : String) : Bool :=
  match v with
  | some (.s t) => decide (t ≠ "") && (String.mk (trimChars t.data) == name)
  | some (.n _) => false
  | none => false

/-- The first-column label scan shared by the three lookup helpers:
`for row_idx in range(1, worksheet.max_row + 1): ...` returning the first
matching row index. -/
def findRowIdx (ws : Sheet) (name : String) : Option ℕ :=
  ((List.range ws.maxRow).map (· + 1)).find? fun r =>
    cellMatchesLabel (ws.get (r, 1)) name

/-- openpyxl `get_column_letter`, 1-based bijective base 26.  The first
argument is recursion fuel; `n` itself always suffices. -/
def colLetterGo : ℕ → ℕ → String → String
  | 0, _, acc => acc
  | _ + 1, 0, acc => acc
  | fuel + 1, n, acc =>
    colLetterGo fuel ((n - 1) / 26)
      (String.mk (Char.ofNat (65 + (n - 1) % 26) :: acc.toList))

/-- openpyxl `get_column_letter` (`1 ↦ "A"`, `27 ↦ "AA"`, ...). -/
def colLetter (n : ℕ) : String := colLetterGo n n ""

/-- `get_row_and_column_range(worksheet, row_name, n_years)`: the matched
row index and the spreadsheet range string for the last `n_years` columns
excluding the final (LTM) column.  `max(2, max_col - n_years)` clamps the
start; natural subtraction reproduces the Python `max` with a negative
argument. -/
def get_row_and_column_range (ws : Sheet) (name : String) (nYears : ℕ) :
    Option (ℕ × String) :=
  (findRowIdx ws name).map fun ri =>
    let startCol := max 2 (ws.maxCol - nYears)
    let endCol := ws.maxCol - 1
    (ri, colLetter startCol ++ toString ri ++ ":" ++ colLetter endCol ++ toString ri)

/-- `get_latest_year_cell(worksheet, row_name)`: the cell of the matched
row in the second-to-last column, or the last column itself when the
sheet has at most 2 columns. -/
def get_latest_year_cell (ws : Sheet) (name : String) : Option String :=
  (findRowIdx ws name).map fun ri =>
    let latestCol := if ws.maxCol > 2 then ws.maxCol - 1 else ws.maxCol
    colLetter latestCol ++ toString ri

/-- `get_ltm_cell(worksheet, row_name)`: the cell of the matched row in
the last column. -/
def get_ltm_cell (ws : Sheet) (name : String) : Option String :=
  (findRowIdx ws name).map fun ri => colLetter ws.maxCol ++ toString ri

/-- First maximal run of characters satisfying `p` (the first match of a
`[c]+` character-class regex). -/
def firstRun (p : Char → Bool) (s : String) : Option String :=
  let l := (s.data.dropWhile fun c => !p c).takeWhile p
  if l.isEmpty then none else some (String.mk l)

/-- The current-price extraction for O19:
`re.search` of an optional dollar sign followed by a run of digits,
commas and dots, then stripping dollar signs and commas and `float(...)`.
`none` models both a failed match and a caught conversion error, either
of which leaves the cell unmodified. -/
def parsePrice (t : String) : Option ℚ :=
  match firstRun (fun c => c.isDigit || c == ',' || c == '.') t with
  | none => none
  | some g => parseDecimal (String.mk (g.data.filter fun c => c ≠ ','))

/-- The shares-outstanding extraction for O28: strip commas, match a run
of digits and dots, convert, divide by one million and round to 2
decimals. -/
def parseShares (t : String) : Option ℚ :=
  let cleaned := String.mk (t.data.filter fun c => c ≠ ',')
  match firstRun (fun c => c.isDigit || c == '.') cleaned with
  | none => none
  | some g => (parseDecimal g).map fun q => pyRound 2 (q / 1000000)

/-- Conditionally write one target cell: `some` performs the write,
`none` is the warning-and-skip path that leaves the cell at its
template-default value. -/
def maybeSet {α : Type} (o : Option α) (f : α → CellVal) (rc : ℕ × ℕ)
    (ws : Sheet) : Sheet :=
  match o with
  | some x => ws.setCell rc (f x)
  | none => ws

/-- Target cell O12 (operating margin); column O is 15. -/
def cellO12 : ℕ × ℕ := (12, 15)

/-- Target cell O14 (tax effective). -/
def cellO14 : ℕ × ℕ := (14, 15)

/-- Target cell O15 (sales to capital). -/
def cellO15 : ℕ × ℕ := (15, 15)

/-- Target cell O16 (tax margin). -/
def cellO16 : ℕ × ℕ := (16, 15)

/-- Target cell O18 (revenue). -/
def cellO18 : ℕ × ℕ := (18, 15)

/-- Target cell O19 (current price). -/
def cellO19 : ℕ × ℕ := (19, 15)

/-- Target cell O23 (debt). -/
def cellO23 : ℕ × ℕ := (23, 15)

/-- Target cell O25 (cash). -/
def cellO25 : ℕ × ℕ := (25, 15)

/-- Target cell O28 (number of shares, millions). -/
def cellO28 : ℕ × ℕ := (28, 15)

/-- `_update_valuation_base_fields`, given the already-assembled income
and balance-sheet statement sheets, the valuation-template sheet, the
Sales-to-Capital result and the live-quote snapshot dictionary.  The
eight target-cell updates run in the source's order; each one either
writes its own cell or (on a failed lookup) logs a warning — not
modelled — and leaves the cell untouched.  The early return on missing
workbook sheets is the caller's concern and outside this function. -/
def update_valuation_base_fields (income balance valuation : Sheet)
    (stc : Option STCResult) (yfinance_data : Option (List (String × String))) :
    Sheet :=
  -- 1) Operating margin (O12)
  let opLookup := get_row_and_column_range income "% Operating Margins" 4
  let v1 := maybeSet opLookup
    (fun p => .s ("=AVERAGE(income_statement!" ++ p.2 ++ ")/100")) cellO12 valuation
  -- 2) Tax effective (O14) and tax margin (O16), one shared lookup
  let taxLookup := get_row_and_column_range income "Effective Tax Rate %" 4
  let taxFormula := fun (p : ℕ × String) =>
    CellVal.s ("=AVERAGE(income_statement!" ++ p.2 ++ ")/100")
  let v2 := maybeSet taxLookup taxFormula cellO16
    (maybeSet taxLookup taxFormula cellO14 v1)
  -- 3) Revenue (O18), latest non-LTM year
  let v3 := maybeSet (get_latest_year_cell income "Total Revenues")
    (fun c => .s ("=income_statement!" ++ c)) cellO18 v2
  -- 4) Debt (O23), "Total Debt" row, else "Long-Term Debt"
  let debtLookup :=
    match get_ltm_cell balance "Total Debt" with
    | some c => some c
    | none => get_ltm_cell balance "Long-Term Debt"
  let v4 := maybeSet debtLookup
    (fun c => .s ("=balancesheet_statement!" ++ c)) cellO23 v3
  -- 5) Cash (O25)
  let v5 := maybeSet (get_ltm_cell balance "Cash And Equivalents")
    (fun c => .s ("=balancesheet_statement!" ++ c)) cellO25 v4
  -- 6) Sales to Capital (O15), literal number
  let v6 := maybeSet stc (fun r => .n r.sales_to_capital_ratio) cellO15 v5
  -- 7) Current price (O19), literal number
  let priceLookup :=
    (yfinance_data.bind fun d => alistFind? d "Current Price").bind parsePrice
  let v7 := maybeSet priceLookup (fun q => .n q) cellO19 v6
  -- 8) Shares outstanding in millions (O28), literal number
  let sharesLookup :=
    (yfinance_data.bind fun d => alistFind? d "Shares Outstanding").bind parseShares
  maybeSet sharesLookup (fun q => .n q) cellO28 v7

/-! ## Concrete fixtures used by witnesses and counterexamples -/

/-- Previous-year income row fixture. -/
def rowIncPrev : Row := [("year", .num 2022), ("Total Revenues", .num 1000)]

/-- Latest-year income row fixture. -/
def rowIncLast : Row := [("year", .num 2023), ("Total Revenues", .num 1200)]

/-- Previous-year balance-sheet row fixture. -/
def rowBalPrev : Row :=
  [("year", .num 2022), ("Total Debt ", .num 250), ("Total Equity", .num 650),
   ("Cash And Equivalents", .num 80)]

/-- Latest-year balance-sheet row fixture. -/
def rowBalLast : Row :=
  [("year", .num 2023), ("Total Debt ", .num 300), ("Total Equity", .num 700),
   ("Cash And Equivalents", .num 100)]

/-- Latest-year balance-sheet row with cash raised to 180, which makes the
net invested capital `(300+700-180) - (250+650-80) = 0`. -/
def rowBalLastZeroNic : Row :=
  [("year", .num 2023), ("Total Debt ", .num 300), ("Total Equity", .num 700),
   ("Cash And Equivalents", .num 180)]

/-- Income row carrying no revenue alias at all. -/
def rowNoRevenue : Row := [("year", .num 2023)]

/-- Income row fixture for calendar year 2021. -/
def rowIncOldest : Row := [("year", .num 2021), ("Total Revenues", .num 900)]

/-- A schema of 11 plain metric columns, all of which the feed denies. -/
def schemaDenied11 : List (String × ℤ) :=
  [("M1", 1), ("M2", 2), ("M3", 3), ("M4", 4), ("M5", 5), ("M6", 6), ("M7", 7),
   ("M8", 8), ("M9", 9), ("M10", 10), ("M11", 11)]

/-- The first ten columns of `schemaDenied11`. -/
def schemaDenied10 : List (String × ℤ) :=
  [("M1", 1), ("M2", 2), ("M3", 3), ("M4", 4), ("M5", 5), ("M6", 6), ("M7", 7),
   ("M8", 8), ("M9", 9), ("M10", 10)]

/-- Raw data answering every one of the 11 identifiers with the
access-denied sentinel. -/
def rawDenied : List RawDataPoint :=
  [⟨1, 1, "1.11"⟩, ⟨1, 2, "1.11"⟩, ⟨1, 3, "1.11"⟩, ⟨1, 4, "1.11"⟩,
   ⟨1, 5, "1.11"⟩, ⟨1, 6, "1.11"⟩, ⟨1, 7, "1.11"⟩, ⟨1, 8, "1.11"⟩,
   ⟨1, 9, "1.11"⟩, ⟨1, 10, "1.11"⟩, ⟨1, 11, "1.11"⟩]

/-- The row built from `schemaDenied11` over `rawDenied`. -/
def rowDenied11 : Row :=
  [("year", .num 2020), ("M1", .empty), ("M2", .empty), ("M3", .empty),
   ("M4", .empty), ("M5", .empty), ("M6", .empty), ("M7", .empty),
   ("M8", .empty), ("M9", .empty), ("M10", .empty), ("M11", .empty)]

/-- The row built from `schemaDenied10` over `rawDenied`. -/
def rowDenied10 : Row :=
  [("year", .num 2020), ("M1", .empty), ("M2", .empty), ("M3", .empty),
   ("M4", .empty), ("M5", .empty), ("M6", .empty), ("M7", .empty),
   ("M8", .empty), ("M9", .empty), ("M10", .empty)]

/-- A cash-flow schema slice: one direct column plus the two derived
pseudo-fields, whose identifiers are never present in the raw feed. -/
def schemaCashFlow : List (String × ℤ) :=
  [("Cash from Operations", 2006), ("Free Cash Flow", 910001),
   ("% Free Cash Flow Margins", 910002)]

/-- Period data with cash-from-operations 1000 and capital expenditure
-200 under their fixed identifiers. -/
def rawCashFlow : List RawDataPoint := [⟨1, 2006, "1000"⟩, ⟨1, 2021, "-200"⟩]

/-- The same period with the capital-expenditure identifier absent. -/
def rawCashFlowNoCapex : List RawDataPoint := [⟨1, 2006, "1000"⟩]

/-- Row built from `schemaCashFlow` over `rawCashFlow` (Free Cash Flow is
computed; the margin branch finds no revenue identifier and writes
nothing). -/
def rowCashFlow : Row :=
  [("year", .num 2023), ("Cash from Operations", .num 1000),
   ("Free Cash Flow", .num 800)]

/-- Row built from `schemaCashFlow` over `rawCashFlowNoCapex` (no Free
Cash Flow key; the margin pseudo-field falls through to the general case
and is stored as the empty-string sentinel). -/
def rowCashFlowNoCapex : Row :=
  [("year", .num 2023), ("Cash from Operations", .num 1000),
   ("% Free Cash Flow Margins", .empty)]

/-- Balance-sheet row in which the first debt alias `"Total Debt "` is
present with the numeric value 0 (non-empty but falsy in Python) and
`"Long-Term Debt"` is present with 500. -/
def rowZeroTotalDebt : Row :=
  [("Total Debt ", .num 0), ("Long-Term Debt", .num 500)]

/-- Balance-sheet row with both `"Total Debt "` (300) and
`"Long-Term Debt"` (500) populated with non-zero values. -/
def rowBothDebts : Row :=
  [("Total Debt ", .num 300), ("Long-Term Debt", .num 500)]

/-- An assembled income sheet with no "% Operating Margins" row but with
"Total Revenues" (row 2) and "Effective Tax Rate %" (row 3); years occupy
columns B through D (D is the LTM column). -/
def sheetIncomeNoOpMargins : Sheet :=
  { cells := [((1, 1), .s "AAPL"),
      ((2, 1), .s "Total Revenues"), ((2, 2), .n 100), ((2, 3), .n 110),
      ((2, 4), .n 120),
      ((3, 1), .s "Effective Tax Rate %"), ((3, 2), .n 20), ((3, 3), .n 21),
      ((3, 4), .n 22)]
    maxRow := 3
    maxCol := 4 }

/-- An assembled balance sheet with "Total Debt" (row 2) and
"Cash And Equivalents" (row 3). -/
def sheetBalance4 : Sheet :=
  { cells := [((1, 1), .s "AAPL"),
      ((2, 1), .s "Total Debt"), ((2, 2), .n 40), ((2, 3), .n 41),
      ((2, 4), .n 42),
      ((3, 1), .s "Cash And Equivalents"), ((3, 2), .n 30), ((3, 3), .n 31),
      ((3, 4), .n 32)]
    maxRow := 3
    maxCol := 4 }

/-- A valuation-template sheet whose O12 carries a template-default
value. -/
def sheetValu : Sheet :=
  { cells := [((12, 15), .s "op-margin-default"), ((18, 15), .s "rev-default")]
    maxRow := 30
    maxCol := 20 }

/-- A Sales-to-Capital result fixture (the C1 round-trip values). -/
def stcFixture : STCResult :=
  { sales_to_capital_ratio := 5 / 2
    net_revenue := 200
    net_invested_capital := 80
    latest_year := .num 2023
    previous_year := .num 2022
    latest_revenue := 1200
    previous_revenue := 1000
    latest_invested_capital := 900
    previous_invested_capital := 820
    latest_debt := 300
    latest_equity := 700
    latest_cash := 100
    previous_debt := 250
    previous_equity := 650
    previous_cash := 80 }

/-- A live-quote snapshot fixture. -/
def yfdFixture : List (String × String) :=
  [("Current Price", "$123.45"), ("Shares Outstanding", "1,500,000,000")]

/-- A one-year income sheet: the label column plus a single populated
data column, so the last populated column is column 2. -/
def sheetTinyIncome : Sheet :=
  { cells := [((1, 1), .s "Total Revenues"), ((1, 2), .n 100)]
    maxRow := 1
    maxCol := 2 }

/-- YoY fixture: base value 100 with an unset YoY field. -/
def rowYoYa : Row :=
  [("year", .num 2022), ("Revenues", .num 100), ("Revenues YoY", .empty)]

/-- YoY fixture: base value 150 with an unset YoY field. -/
def rowYoYb : Row :=
  [("year", .num 2023), ("Revenues", .num 150), ("Revenues YoY", .empty)]

/-- YoY fixture: base value -50 with an unset YoY field. -/
def rowYoYneg : Row :=
  [("year", .num 2023), ("Revenues", .num (-50)), ("Revenues YoY", .empty)]

/-- YoY fixture: base value 0 with an unset YoY field. -/
def rowYoYzero : Row :=
  [("year", .num 2021), ("Revenues", .num 0), ("Revenues YoY", .empty)]

/-- YoY fixture: a trailing row so that the row under test is not the
last one. -/
def rowYoYlast : Row :=
  [("year", .num 2024), ("Revenues", .num 160), ("Revenues YoY", .empty)]

/-! ## Supporting lemmas -/

attribute [local semireducible] Rat.mul Rat.add Rat.sub Rat.inv

theorem alistFind?_insert_self {κ β : Type} [DecidableEq κ]
    (l : List (κ × β)) (k : κ) (v : β) :
    alistFind? (alistInsert l k v) k = some v := by
  induction l with
  | nil => simp [alistInsert, alistFind?]
  | cons hd tl ih =>
    by_cases h : hd.1 = k
    · simp [alistInsert, alistFind?, h]
    · simp [alistInsert, alistFind?, h, ih]

theorem alistFind?_insert_ne {κ β : Type} [DecidableEq κ]
    (l : List (κ × β)) (k k' : κ) (v : β) (h : k ≠ k') :
    alistFind? (alistInsert l k v) k' = alistFind? l k' := by
  induction l with
  | nil => simp [alistInsert, alistFind?, h]
  | cons hd tl ih =>
    by_cases hk : hd.1 = k
    · simp [alistInsert, alistFind?, hk, h]
    · simp only [alistInsert, hk, if_false]
      by_cases hk' : hd.1 = k'
      · simp [alistFind?, hk']
      · simp [alistFind?, hk', ih]

theorem last2_eq_none_of_short (l : List Row) (h : l.length < 2) :
    last2 l = none := by
  match l with
  | [] => rfl
  | [a] => rfl
  | a :: b :: t => simp at h; omega

/-- Inversion for a successful Sales-to-Capital computation: every input
resolution must have succeeded and the denominator must be nonzero, and
the reported years are read off the latest/previous income rows. -/
theorem calc_stc_eq_some_inv (inc bal : List Row) (res : STCResult)
    (h : calculate_sales_to_capital inc bal = some res) :
    ∃ pu lu pb lb lr pr ld le lc pd pe pc,
      last2 inc = some (pu, lu) ∧ last2 bal = some (pb, lb) ∧
      get_financial_value lu revenue_keys = some lr ∧
      get_financial_value pu revenue_keys = some pr ∧
      get_financial_value lb debt_keys = some ld ∧
      get_financial_value lb equity_keys = some le ∧
      get_financial_value lb cash_keys = some lc ∧
      get_financial_value pb debt_keys = some pd ∧
      get_financial_value pb equity_keys = some pe ∧
      get_financial_value pb cash_keys = some pc ∧
      ld + le - lc - (pd + pe - pc) ≠ 0 ∧
      res.latest_year = (alistFind? lu "year").getD (.str "Unknown") ∧
      res.previous_year = (alistFind? pu "year").getD (.str "Unknown") := by
  unfold calculate_sales_to_capital at h
  simp only [Option.bind_eq_bind, Option.bind_eq_some] at h
  obtain ⟨⟨pu, lu⟩, hinc, ⟨pb, lb⟩, hbal, lr, hlr, pr, hpr, ld, hld, le, hle,
    lc, hlc, pd, hpd, pe, hpe, pc, hpc, hfin⟩ := h
  refine ⟨pu, lu, pb, lb, lr, pr, ld, le, lc, pd, pe, pc, hinc, hbal, hlr, hpr,
    hld, hle, hlc, hpd, hpe, hpc, ?_, ?_, ?_⟩
  · intro hc
    rw [if_pos hc] at hfin
    cases hfin
  · split at hfin
    · cases hfin
    · obtain rfl := (Option.some.inj hfin).symm
      rfl
  · split at hfin
    · cases hfin
    · obtain rfl := (Option.some.inj hfin).symm
      rfl

/-! ## Claim C1 -/

/-- C1: for every pair of income and balance-sheet row lists whose two
most recent retained rows resolve to latest/previous revenue 1200/1000
and latest/previous (debt, equity, cash) of (300, 700, 100) and
(250, 650, 80), `calculate_sales_to_capital` returns a result with latest
invested capital 900, previous invested capital 820, net invested capital
80, net revenue 200 and ratio 2.5; and if the cash values are changed so
that the net invested capital equals 0, it returns `none` instead of
raising a division error. -/
theorem claim_C1_sales_to_capital_round_trip :
    (∀ (inc bal : List Row) (pu lu pb lb : Row),
      last2 inc = some (pu, lu) → last2 bal = some (pb, lb) →
      get_financial_value lu revenue_keys = some 1200 →
      get_financial_value pu revenue_keys = some 1000 →
      get_financial_value lb debt_keys = some 300 →
      get_financial_value lb equity_keys = some 700 →
      get_financial_value lb cash_keys = some 100 →
      get_financial_value pb debt_keys = some 250 →
      get_financial_value pb equity_keys = some 650 →
      get_financial_value pb cash_keys = some 80 →
      ∃ res, calculate_sales_to_capital inc bal = some res ∧
        res.latest_invested_capital = 900 ∧ res.previous_invested_capital = 820 ∧
        res.net_invested_capital = 80 ∧ res.net_revenue = 200 ∧
        res.sales_to_capital_ratio = 5 / 2) ∧
    (∀ (inc bal : List Row) (pu lu pb lb : Row) (lc pc : ℚ),
      last2 inc = some (pu, lu) → last2 bal = some (pb, lb) →
      get_financial_value lu revenue_keys = some 1200 →
      get_financial_value pu revenue_keys = some 1000 →
      get_financial_value lb debt_keys = some 300 →
      get_financial_value lb equity_keys = some 700 →
      get_financial_value lb cash_keys = some lc →
      get_financial_value pb debt_keys = some 250 →
      get_financial_value pb equity_keys = some 650 →
      get_financial_value pb cash_keys = some pc →
      lc - pc = 100 →
      calculate_sales_to_capital inc bal = none) := by
  constructor
  · intro inc bal pu lu pb lb hinc hbal hlr hpr hld hle hlc hpd hpe hpc
    unfold calculate_sales_to_capital
    rw [hinc, hbal]
    simp only [Option.bind_eq_bind, Option.some_bind, hlr, hpr, hld, hle, hlc, hpd, hpe, hpc]
    norm_num
    refine ⟨by decide, by decide, by decide, by decide, by decide⟩
  · intro inc bal pu lu pb lb lc pc hinc hbal hlr hpr hld hle hlc hpd hpe hpc hz
    unfold calculate_sales_to_capital
    rw [hinc, hbal]
    simp only [Option.bind_eq_bind, Option.some_bind, hlr, hpr, hld, hle, hlc, hpd, hpe, hpc]
    have hnic : (300 : ℚ) + 700 - lc - (250 + 650 - pc) = 0 := by linarith
    simp [hnic]

/-- Witness for C1 at fully concrete inputs. -/
theorem claim_C1_sales_to_capital_round_trip_witness :
    (∃ res,
      calculate_sales_to_capital [rowIncPrev, rowIncLast] [rowBalPrev, rowBalLast] =
        some res ∧
      res.latest_invested_capital = 900 ∧ res.previous_invested_capital = 820 ∧
      res.net_invested_capital = 80 ∧ res.net_revenue = 200 ∧
      res.sales_to_capital_ratio = 5 / 2) ∧
    calculate_sales_to_capital [rowIncPrev, rowIncLast] [rowBalPrev, rowBalLastZeroNic] =
      none :=
  ⟨claim_C1_sales_to_capital_round_trip.1 _ _ rowIncPrev rowIncLast rowBalPrev
      rowBalLast (by decide) (by decide)
      (by decide) (by decide) (by decide) (by decide) (by decide) (by decide)
      (by decide) (by decide),
   claim_C1_sales_to_capital_round_trip.2 _ _ rowIncPrev rowIncLast rowBalPrev
      rowBalLastZeroNic 180 80 (by decide) (by decide) (by decide) (by decide)
      (by decide) (by decide) (by decide) (by decide) (by decide) (by decide)
      (by decide)⟩

/-! ## Claim C7 -/

/-- C7: `calculate_sales_to_capital` returns `none`, with no exception
propagating, whenever the income or balance-sheet list has fewer than 2
retained rows, or whenever any of revenue, debt, equity or cash cannot be
resolved under its aliases for either of the two most recent rows, or
whenever the net invested capital denominator equals zero. -/
theorem claim_C7_sales_to_capital_failure_modes :
    (∀ (inc bal : List Row), inc.length < 2 ∨ bal.length < 2 →
      calculate_sales_to_capital inc bal = none) ∧
    (∀ (inc bal : List Row) (pu lu pb lb : Row),
      last2 inc = some (pu, lu) → last2 bal = some (pb, lb) →
      (get_financial_value lu revenue_keys = none ∨
       get_financial_value pu revenue_keys = none ∨
       get_financial_value lb debt_keys = none ∨
       get_financial_value lb equity_keys = none ∨
       get_financial_value lb cash_keys = none ∨
       get_financial_value pb debt_keys = none ∨
       get_financial_value pb equity_keys = none ∨
       get_financial_value pb cash_keys = none) →
      calculate_sales_to_capital inc bal = none) ∧
    (∀ (inc bal : List Row) (pu lu pb lb : Row) (lr pr ld le lc pd pe pc : ℚ),
      last2 inc = some (pu, lu) → last2 bal = some (pb, lb) →
      get_financial_value lu revenue_keys = some lr →
      get_financial_value pu revenue_keys = some pr →
      get_financial_value lb debt_keys = some ld →
      get_financial_value lb equity_keys = some le →
      get_financial_value lb cash_keys = some lc →
      get_financial_value pb debt_keys = some pd →
      get_financial_value pb equity_keys = some pe →
      get_financial_value pb cash_keys = some pc →
      ld + le - lc - (pd + pe - pc) = 0 →
      calculate_sales_to_capital inc bal = none) := by
  refine ⟨?_, ?_, ?_⟩
  · intro inc bal h
    unfold calculate_sales_to_capital
    rcases h with h | h
    · rw [last2_eq_none_of_short _ h]
      simp only [Option.bind_eq_bind, Option.none_bind]
    · cases hv : last2 inc with
      | none => simp only [Option.bind_eq_bind, Option.none_bind]
      | some v =>
        rw [last2_eq_none_of_short _ h]
        simp only [Option.bind_eq_bind, Option.some_bind, Option.none_bind]
  · intro inc bal pu lu pb lb hinc hbal hdis
    cases hc : calculate_sales_to_capital inc bal with
    | none => rfl
    | some res =>
      exfalso
      obtain ⟨pu', lu', pb', lb', lr, pr, ld, le, lc, pd, pe, pc, hinc', hbal',
        hlr, hpr, hld, hle, hlc, hpd, hpe, hpc, hnz, hly, hpy⟩ :=
        calc_stc_eq_some_inv _ _ _ hc
      rw [hinc] at hinc'
      rw [hbal] at hbal'
      simp only [Option.some.injEq, Prod.mk.injEq] at hinc' hbal'
      obtain ⟨rfl, rfl⟩ := hinc'
      obtain ⟨rfl, rfl⟩ := hbal'
      rcases hdis with h | h | h | h | h | h | h | h
      · rw [h] at hlr; cases hlr
      · rw [h] at hpr; cases hpr
      · rw [h] at hld; cases hld
      · rw [h] at hle; cases hle
      · rw [h] at hlc; cases hlc
      · rw [h] at hpd; cases hpd
      · rw [h] at hpe; cases hpe
      · rw [h] at hpc; cases hpc
  · intro inc bal pu lu pb lb lr pr ld le lc pd pe pc hinc hbal h1 h2 h3 h4 h5
      h6 h7 h8 hz
    cases hc : calculate_sales_to_capital inc bal with
    | none => rfl
    | some res =>
      exfalso
      obtain ⟨pu', lu', pb', lb', lr', pr', ld', le', lc', pd', pe', pc', hinc',
        hbal', hlr, hpr, hld, hle, hlc, hpd, hpe, hpc, hnz, hly, hpy⟩ :=
        calc_stc_eq_some_inv _ _ _ hc
      rw [hinc] at hinc'
      rw [hbal] at hbal'
      simp only [Option.some.injEq, Prod.mk.injEq] at hinc' hbal'
      obtain ⟨rfl, rfl⟩ := hinc'
      obtain ⟨rfl, rfl⟩ := hbal'
      rw [h3] at hld
      rw [h4] at hle
      rw [h5] at hlc
      rw [h6] at hpd
      rw [h7] at hpe
      rw [h8] at hpc
      obtain rfl := Option.some.inj hld
      obtain rfl := Option.some.inj hle
      obtain rfl := Option.some.inj hlc
      obtain rfl := Option.some.inj hpd
      obtain rfl := Option.some.inj hpe
      obtain rfl := Option.some.inj hpc
      exact hnz hz

/-- Witness for C7: an empty income list, an unresolvable revenue row,
and a zero net-invested-capital instance each yield `none`. -/
theorem claim_C7_sales_to_capital_failure_modes_witness :
    calculate_sales_to_capital [] [rowBalPrev, rowBalLast] = none ∧
    calculate_sales_to_capital [rowIncPrev, rowNoRevenue]
      [rowBalPrev, rowBalLast] = none ∧
    calculate_sales_to_capital [rowIncPrev, rowIncLast]
      [rowBalPrev, rowBalLastZeroNic] = none :=
  ⟨claim_C7_sales_to_capital_failure_modes.1 _ _ (Or.inl (by decide)),
   claim_C7_sales_to_capital_failure_modes.2.1 _ _ rowIncPrev rowNoRevenue
     rowBalPrev rowBalLast (by decide) (by decide) (Or.inl (by decide)),
   claim_C7_sales_to_capital_failure_modes.2.2 _ _ rowIncPrev rowIncLast
     rowBalPrev rowBalLastZeroNic 1200 1000 300 700 180 250 650 80 (by decide)
     (by decide) (by decide) (by decide) (by decide) (by decide) (by decide)
     (by decide) (by decide) (by decide) (by decide)⟩

/-! ## Claim C9 -/

/-- C9: relabeling the most recent period as "LTM" is presentation-only.
For retained rows with calendar years [2021, 2022, 2023] the assembled
sheet's year column headers are [2021, 2022, "LTM"], every row's internal
`year` value is unchanged, and a Sales-to-Capital result computed over
those income rows reports `latest_year = 2023` (and
`previous_year = 2022`), the real calendar years, not the display
label. -/
theorem claim_C9_ltm_relabel_presentation_only :
    ∀ (r1 r2 r3 : Row) (bal : List Row),
      alistFind? r1 "year" = some (.num 2021) →
      alistFind? r2 "year" = some (.num 2022) →
      alistFind? r3 "year" = some (.num 2023) →
      exportHeaderYears [r1, r2, r3] = [.num 2021, .num 2022, .str "LTM"] ∧
      [r1, r2, r3].map (fun r => alistFind? r "year") =
        [some (.num 2021), some (.num 2022), some (.num 2023)] ∧
      ∀ res, calculate_sales_to_capital [r1, r2, r3] bal = some res →
        res.latest_year = .num 2023 ∧ res.previous_year = .num 2022 := by
  intro r1 r2 r3 bal h1 h2 h3
  refine ⟨?_, ?_, ?_⟩
  · simp only [exportHeaderYears, List.map, h1, h2, h3, Option.getD_some,
      List.isEmpty_cons, List.dropLast]
    rfl
  · simp only [List.map, h1, h2, h3]
  · intro res hres
    obtain ⟨pu, lu, pb, lb, lr, pr, ld, le, lc, pd, pe, pc, hinc', hbal', hlr,
      hpr, hld, hle, hlc, hpd, hpe, hpc, hnz, hly, hpy⟩ :=
      calc_stc_eq_some_inv _ _ _ hres
    rw [show last2 [r1, r2, r3] = some (r2, r3) from rfl] at hinc'
    simp only [Option.some.injEq, Prod.mk.injEq] at hinc'
    obtain ⟨rfl, rfl⟩ := hinc'
    constructor
    · rw [hly, h3]
      rfl
    · rw [hpy, h2]
      rfl

/-- Witness for C9 at concrete rows with years 2021, 2022, 2023. -/
theorem claim_C9_ltm_relabel_presentation_only_witness :
    exportHeaderYears [rowIncOldest, rowIncPrev, rowIncLast] =
      [.num 2021, .num 2022, .str "LTM"] ∧
    [rowIncOldest, rowIncPrev, rowIncLast].map (fun r => alistFind? r "year") =
      [some (.num 2021), some (.num 2022), some (.num 2023)] ∧
    ∀ res, calculate_sales_to_capital [rowIncOldest, rowIncPrev, rowIncLast]
        [rowBalPrev, rowBalLast] = some res →
      res.latest_year = .num 2023 ∧ res.previous_year = .num 2022 :=
  claim_C9_ltm_relabel_presentation_only rowIncOldest rowIncPrev rowIncLast
    [rowBalPrev, rowBalLast] (by decide) (by decide) (by decide)

theorem foldlM_option_cons {α σ : Type} (f : σ → α → Option σ) (a : α)
    (l : List α) (acc : σ) :
    List.foldlM f acc (a :: l) = (f acc a).bind fun acc₂ => List.foldlM f acc₂ l := rfl

theorem foldlM_option_append {α σ : Type} (f : σ → α → Option σ)
    (l₁ l₂ : List α) (acc out : σ)
    (h : List.foldlM f acc (l₁ ++ l₂) = some out) :
    ∃ mid, List.foldlM f acc l₁ = some mid ∧ List.foldlM f mid l₂ = some out := by
  induction l₁ generalizing acc with
  | nil => exact ⟨acc, rfl, h⟩
  | cons a l₁ ih =>
    rw [List.cons_append, foldlM_option_cons] at h
    cases hs : f acc a with
    | none => rw [hs] at h; cases h
    | some acc₂ =>
      rw [hs] at h
      obtain ⟨mid, h1, h2⟩ := ih acc₂ h
      exact ⟨mid, by rw [foldlM_option_cons, hs]; exact h1, h2⟩

theorem calcFreeCashFlow_find_ne (raw : List RawDataPoint) (row row' : Row)
    (c : String) (h : calcFreeCashFlow raw row = some row')
    (hc : c ≠ "Free Cash Flow") :
    alistFind? row' c = alistFind? row c := by
  unfold calcFreeCashFlow at h
  split at h
  · split at h
    · obtain rfl := Option.some.inj h
      exact alistFind?_insert_ne row "Free Cash Flow" c _ (fun e => hc e.symm)
    · cases h
  · obtain rfl := Option.some.inj h
    rfl

theorem calcFcfMargins_find_ne (raw : List RawDataPoint) (revenueId : ℤ)
    (row row' : Row) (c : String)
    (h : calcFcfMargins raw revenueId row = some row')
    (hc : c ≠ "% Free Cash Flow Margins") :
    alistFind? row' c = alistFind? row c := by
  unfold calcFcfMargins at h
  split at h
  · obtain rfl := Option.some.inj h
    rfl
  · split at h
    · obtain rfl := Option.some.inj h
      rfl
    · split at h
      · split at h
        · obtain rfl := Option.some.inj h
          exact alistFind?_insert_ne row "% Free Cash Flow Margins" c _
            (fun e => hc e.symm)
        · obtain rfl := Option.some.inj h
          rfl
      · cases h

theorem processColumn_find_ne (raw : List RawDataPoint) (revenueId : ℤ)
    (acc acc₂ : Row × ℕ) (kv : String × ℤ) (c : String)
    (h : processColumn raw revenueId acc kv = some acc₂) (hc : c ≠ kv.1) :
    alistFind? acc₂.1 c = alistFind? acc.1 c := by
  unfold processColumn at h
  split at h
  · rename_i h1
    cases hcf : calcFreeCashFlow raw acc.1 with
    | none => rw [hcf] at h; cases h
    | some r' =>
      rw [hcf] at h
      obtain rfl := Option.some.inj h
      exact calcFreeCashFlow_find_ne raw acc.1 r' c hcf (h1 ▸ hc)
  · split at h
    · rename_i h2
      cases hcf : calcFcfMargins raw revenueId acc.1 with
      | none => rw [hcf] at h; cases h
      | some r' =>
        rw [hcf] at h
        obtain rfl := Option.some.inj h
        exact calcFcfMargins_find_ne raw revenueId acc.1 r' c hcf (h2.1 ▸ hc)
    · split at h
      · split at h
        · obtain rfl := Option.some.inj h
          exact alistFind?_insert_ne acc.1 kv.1 c _ (fun e => hc e.symm)
        · split at h
          · cases hp : parseDecimal _ <;> rw [hp] at h
            · cases h
            · obtain rfl := Option.some.inj h
              exact alistFind?_insert_ne acc.1 kv.1 c _ (fun e => hc e.symm)
          · cases hp : parseDecimal _ <;> rw [hp] at h
            · cases h
            · obtain rfl := Option.some.inj h
              exact alistFind?_insert_ne acc.1 kv.1 c _ (fun e => hc e.symm)
      · obtain rfl := Option.some.inj h
        exact alistFind?_insert_ne acc.1 kv.1 c _ (fun e => hc e.symm)

theorem foldl_processColumn_find_not_mem (raw : List RawDataPoint) (revenueId : ℤ) :
    ∀ (schema : List (String × ℤ)) (acc : Row × ℕ) (row : Row) (cnt : ℕ) (c : String),
      c ∉ schema.map Prod.fst →
      List.foldlM (processColumn raw revenueId) acc schema = some (row, cnt) →
      alistFind? row c = alistFind? acc.1 c := by
  intro schema
  induction schema with
  | nil =>
    intro acc row cnt c _ h
    obtain rfl := (Option.some.inj h)
    rfl
  | cons kv rest ih =>
    intro acc row cnt c hc h
    rw [foldlM_option_cons] at h
    simp only [List.map_cons, List.mem_cons, not_or] at hc
    cases hs : processColumn raw revenueId acc kv with
    | none => rw [hs] at h; cases h
    | some acc₂ =>
      rw [hs] at h
      rw [ih acc₂ row cnt c hc.2 h]
      exact processColumn_find_ne raw revenueId acc acc₂ kv c hs hc.1

theorem processColumn_denied (raw : List RawDataPoint) (revenueId : ℤ)
    (acc : Row × ℕ) (c : String) (id : ℤ) (item : RawDataPoint)
    (h1 : c ≠ "Free Cash Flow")
    (h2 : ¬(c = "% Free Cash Flow Margins" ∧ (alistFind? acc.1 "Free Cash Flow").isSome))
    (hm : firstMatch raw id = some item) (hv : item.dataitemvalue = "1.11") :
    processColumn raw revenueId acc (c, id) =
      some (alistInsert acc.1 c .empty, acc.2 + 1) := by
  unfold processColumn
  rw [if_neg h1, if_neg h2]
  simp only [hm, hv]
  simp only [if_true]

theorem processColumn_absent (raw : List RawDataPoint) (revenueId : ℤ)
    (acc : Row × ℕ) (c : String) (id : ℤ)
    (h1 : c ≠ "Free Cash Flow")
    (h2 : ¬(c = "% Free Cash Flow Margins" ∧ (alistFind? acc.1 "Free Cash Flow").isSome))
    (hm : firstMatch raw id = none) :
    processColumn raw revenueId acc (c, id) =
      some (alistInsert acc.1 c .empty, acc.2) := by
  unfold processColumn
  rw [if_neg h1, if_neg h2]
  simp only [hm]

theorem buildRow_denied_field_aux (raw : List RawDataPoint) (revenueId : ℤ)
    (c : String) (id : ℤ) (item : RawDataPoint)
    (hfcf : c ≠ "Free Cash Flow") (hmrg : c ≠ "% Free Cash Flow Margins")
    (hm : firstMatch raw id = some item) (hv : item.dataitemvalue = "1.11") :
    ∀ (schema : List (String × ℤ)) (acc : Row × ℕ) (row : Row) (cnt : ℕ),
      (schema.map Prod.fst).Nodup → (c, id) ∈ schema →
      List.foldlM (processColumn raw revenueId) acc schema = some (row, cnt) →
      alistFind? row c = some .empty := by
  intro schema
  induction schema with
  | nil => intro acc row cnt _ hmem; cases hmem
  | cons kv rest ih =>
    intro acc row cnt hnd hmem h
    rw [foldlM_option_cons] at h
    simp only [List.map_cons, List.nodup_cons] at hnd
    rcases List.mem_cons.mp hmem with heq | hmem'
    · obtain rfl := heq.symm
      rw [processColumn_denied raw revenueId acc c id item hfcf
        (fun hand => hmrg hand.1) hm hv] at h
      simp only [Option.some_bind] at h
      rw [foldl_processColumn_find_not_mem raw revenueId rest _ row cnt c hnd.1 h]
      exact alistFind?_insert_self acc.1 c .empty
    · cases hs : processColumn raw revenueId acc kv with
      | none => rw [hs] at h; cases h
      | some acc₂ =>
        rw [hs] at h
        simp only [Option.some_bind] at h
        exact ih acc₂ row cnt hnd.2 hmem' h


/-! ## Claim C4 -/

/-- C4: every row appended to a statement kind's retained list has an
access-denied count of at most 10: a period whose row counts exactly 11
denied fields is silently dropped (no error), and one that counts exactly
10 is retained. -/
theorem claim_C4_row_retention_threshold :
    ∀ (schema : List (String × ℤ)) (raw : List RawDataPoint) (year : FieldVal)
      (revenueId : ℤ) (row : Row) (cnt : ℕ),
      buildRow schema raw year revenueId = some (row, cnt) →
      (cnt = 11 → processStatement schema raw year revenueId = some none) ∧
      (cnt = 10 → processStatement schema raw year revenueId = some (some row)) ∧
      (∀ r, processStatement schema raw year revenueId = some (some r) →
        r = row ∧ cnt ≤ 10) := by
  intro schema raw year revenueId row cnt h
  unfold processStatement
  rw [h]
  simp only [Option.map_some']
  refine ⟨?_, ?_, ?_⟩
  · rintro rfl
    norm_num
  · rintro rfl
    norm_num
  · intro r hr
    by_cases hc : cnt ≤ 10
    · rw [if_pos hc] at hr
      exact ⟨(Option.some.inj (Option.some.inj hr)).symm, hc⟩
    · rw [if_neg hc] at hr
      cases Option.some.inj hr

/-- Witness for C4: eleven denied fields drop the row, ten retain it. -/
theorem claim_C4_row_retention_threshold_witness :
    processStatement schemaDenied11 rawDenied (.num 2020) 0 = some none ∧
    processStatement schemaDenied10 rawDenied (.num 2020) 0 =
      some (some rowDenied10) :=
  ⟨(claim_C4_row_retention_threshold schemaDenied11 rawDenied (.num 2020) 0
      rowDenied11 11 (by decide)).1 rfl,
   (claim_C4_row_retention_threshold schemaDenied10 rawDenied (.num 2020) 0
      rowDenied10 10 (by decide)).2.1 rfl⟩

/-! ## Claim C5 -/

/-- C5: a raw data point carrying the access-denied sentinel string
`"1.11"` that matches a schema field in the general (non-derived) case is
stored as the empty-string sentinel and increments the row's denial count
by exactly one; it is never interpreted as the numeric value 1.11.  A
field whose identifier is absent from the period is also stored as the
empty-string sentinel but leaves the denial count unchanged. -/
theorem claim_C5_access_denied_sentinel :
    (∀ (raw : List RawDataPoint) (revenueId : ℤ) (acc : Row × ℕ) (c : String)
       (id : ℤ) (item : RawDataPoint),
      c ≠ "Free Cash Flow" →
      ¬(c = "% Free Cash Flow Margins" ∧
        (alistFind? acc.1 "Free Cash Flow").isSome) →
      firstMatch raw id = some item → item.dataitemvalue = "1.11" →
      processColumn raw revenueId acc (c, id) =
        some (alistInsert acc.1 c .empty, acc.2 + 1)) ∧
    (∀ (schema : List (String × ℤ)) (raw : List RawDataPoint) (year : FieldVal)
       (revenueId : ℤ) (c : String) (id : ℤ) (item : RawDataPoint) (row : Row)
       (cnt : ℕ),
      (schema.map Prod.fst).Nodup → (c, id) ∈ schema →
      c ≠ "Free Cash Flow" → c ≠ "% Free Cash Flow Margins" →
      firstMatch raw id = some item → item.dataitemvalue = "1.11" →
      buildRow schema raw year revenueId = some (row, cnt) →
      alistFind? row c = some .empty ∧
        ∀ q : ℚ, alistFind? row c ≠ some (.num q)) ∧
    (∀ (raw : List RawDataPoint) (revenueId : ℤ) (acc : Row × ℕ) (c : String)
       (id : ℤ),
      c ≠ "Free Cash Flow" →
      ¬(c = "% Free Cash Flow Margins" ∧
        (alistFind? acc.1 "Free Cash Flow").isSome) →
      firstMatch raw id = none →
      processColumn raw revenueId acc (c, id) =
        some (alistInsert acc.1 c .empty, acc.2)) := by
  refine ⟨processColumn_denied, ?_, processColumn_absent⟩
  intro schema raw year revenueId c id item row cnt hnd hmem hfcf hmrg hm hv h
  have hfind := buildRow_denied_field_aux raw revenueId c id item hfcf hmrg hm
    hv schema _ row cnt hnd hmem h
  refine ⟨hfind, ?_⟩
  intro q hq
  rw [hfind] at hq
  cases Option.some.inj hq

/-- Witness for C5 at concrete inputs: a denied identifier, a full row
build, and an absent identifier. -/
theorem claim_C5_access_denied_sentinel_witness :
    processColumn rawDenied 0 ([("year", FieldVal.num 2020)], 0) ("M7", 7) =
      some ([("year", FieldVal.num 2020), ("M7", .empty)], 1) ∧
    (alistFind? rowDenied10 "M7" = some .empty ∧
      ∀ q : ℚ, alistFind? rowDenied10 "M7" ≠ some (.num q)) ∧
    processColumn rawDenied 0 ([("year", FieldVal.num 2020)], 0) ("M99", 99) =
      some ([("year", FieldVal.num 2020), ("M99", .empty)], 0) :=
  ⟨claim_C5_access_denied_sentinel.1 rawDenied 0 _ "M7" 7 ⟨1, 7, "1.11"⟩
      (by decide) (by decide) (by decide) rfl,
   claim_C5_access_denied_sentinel.2.1 schemaDenied10 rawDenied (.num 2020) 0
      "M7" 7 ⟨1, 7, "1.11"⟩ rowDenied10 10 (by decide) (by decide) (by decide)
      (by decide) (by decide) rfl (by decide),
   claim_C5_access_denied_sentinel.2.2 rawDenied 0 _ "M99" 99 (by decide)
      (by decide) (by decide)⟩

theorem calcFreeCashFlow_skip (raw : List RawDataPoint)
    (hcx : firstMatch raw 2021 = none) (row : Row) :
    calcFreeCashFlow raw row = some row := by
  unfold calcFreeCashFlow
  rw [hcx]
  cases firstMatch raw 2006 <;> rfl

theorem calcFreeCashFlow_computes (raw : List RawDataPoint)
    (co cx : RawDataPoint)
    (h6 : firstMatch raw 2006 = some co) (h21 : firstMatch raw 2021 = some cx)
    (hpa : parseDecimal co.dataitemvalue = some 1000)
    (hpb : parseDecimal cx.dataitemvalue = some (-200)) (row : Row) :
    calcFreeCashFlow raw row =
      some (alistInsert row "Free Cash Flow" (.num 800)) := by
  unfold calcFreeCashFlow
  rw [h6, h21]
  simp only [hpa, hpb]
  norm_num

theorem processColumn_fcf_none_preserved (raw : List RawDataPoint)
    (revenueId : ℤ) (acc acc₂ : Row × ℕ) (kv : String × ℤ)
    (hcx : firstMatch raw 2021 = none)
    (h : processColumn raw revenueId acc kv = some acc₂)
    (hn : alistFind? acc.1 "Free Cash Flow" = none) :
    alistFind? acc₂.1 "Free Cash Flow" = none := by
  by_cases h1 : kv.1 = "Free Cash Flow"
  · unfold processColumn at h
    rw [if_pos h1, calcFreeCashFlow_skip raw hcx acc.1] at h
    simp only [Option.map_some'] at h
    obtain rfl := Option.some.inj h
    exact hn
  · rw [processColumn_find_ne raw revenueId acc acc₂ kv _ h (fun e => h1 e.symm)]
    exact hn

theorem foldl_fcf_none (raw : List RawDataPoint) (revenueId : ℤ)
    (hcx : firstMatch raw 2021 = none) :
    ∀ (schema : List (String × ℤ)) (acc : Row × ℕ) (row : Row) (cnt : ℕ),
      alistFind? acc.1 "Free Cash Flow" = none →
      List.foldlM (processColumn raw revenueId) acc schema = some (row, cnt) →
      alistFind? row "Free Cash Flow" = none := by
  intro schema
  induction schema with
  | nil =>
    intro acc row cnt hn h
    obtain rfl := Option.some.inj h
    exact hn
  | cons kv rest ih =>
    intro acc row cnt hn h
    rw [foldlM_option_cons] at h
    cases hs : processColumn raw revenueId acc kv with
    | none => rw [hs] at h; cases h
    | some acc₂ =>
      rw [hs] at h
      exact ih acc₂ row cnt
        (processColumn_fcf_none_preserved raw revenueId acc acc₂ kv hcx hs hn) h

theorem processColumn_fcf800_preserved (raw : List RawDataPoint)
    (revenueId : ℤ) (acc acc₂ : Row × ℕ) (kv : String × ℤ)
    (co cx : RawDataPoint)
    (h6 : firstMatch raw 2006 = some co) (h21 : firstMatch raw 2021 = some cx)
    (hpa : parseDecimal co.dataitemvalue = some 1000)
    (hpb : parseDecimal cx.dataitemvalue = some (-200))
    (h : processColumn raw revenueId acc kv = some acc₂)
    (hn : alistFind? acc.1 "Free Cash Flow" = some (.num 800)) :
    alistFind? acc₂.1 "Free Cash Flow" = some (.num 800) := by
  by_cases h1 : kv.1 = "Free Cash Flow"
  · unfold processColumn at h
    rw [if_pos h1, calcFreeCashFlow_computes raw co cx h6 h21 hpa hpb acc.1] at h
    simp only [Option.map_some'] at h
    obtain rfl := Option.some.inj h
    exact alistFind?_insert_self acc.1 "Free Cash Flow" (.num 800)
  · rw [processColumn_find_ne raw revenueId acc acc₂ kv _ h (fun e => h1 e.symm)]
    exact hn

theorem foldl_fcf800_preserved (raw : List RawDataPoint) (revenueId : ℤ)
    (co cx : RawDataPoint)
    (h6 : firstMatch raw 2006 = some co) (h21 : firstMatch raw 2021 = some cx)
    (hpa : parseDecimal co.dataitemvalue = some 1000)
    (hpb : parseDecimal cx.dataitemvalue = some (-200)) :
    ∀ (schema : List (String × ℤ)) (acc : Row × ℕ) (row : Row) (cnt : ℕ),
      alistFind? acc.1 "Free Cash Flow" = some (.num 800) →
      List.foldlM (processColumn raw revenueId) acc schema = some (row, cnt) →
      alistFind? row "Free Cash Flow" = some (.num 800) := by
  intro schema
  induction schema with
  | nil =>
    intro acc row cnt hn h
    obtain rfl := Option.some.inj h
    exact hn
  | cons kv rest ih =>
    intro acc row cnt hn h
    rw [foldlM_option_cons] at h
    cases hs : processColumn raw revenueId acc kv with
    | none => rw [hs] at h; cases h
    | some acc₂ =>
      rw [hs] at h
      exact ih acc₂ row cnt
        (processColumn_fcf800_preserved raw revenueId acc acc₂ kv co cx h6 h21
          hpa hpb hs hn) h

theorem buildRow_fcf_computed (raw : List RawDataPoint) (revenueId : ℤ)
    (co cx : RawDataPoint)
    (h6 : firstMatch raw 2006 = some co) (h21 : firstMatch raw 2021 = some cx)
    (hpa : parseDecimal co.dataitemvalue = some 1000)
    (hpb : parseDecimal cx.dataitemvalue = some (-200)) :
    ∀ (schema : List (String × ℤ)) (year : FieldVal) (row : Row) (cnt : ℕ),
      "Free Cash Flow" ∈ schema.map Prod.fst →
      buildRow schema raw year revenueId = some (row, cnt) →
      alistFind? row "Free Cash Flow" = some (.num 800) := by
  intro schema year row cnt hmem h
  obtain ⟨kv, hkv, hname⟩ := List.mem_map.mp hmem
  obtain ⟨s, t, rfl⟩ := List.append_of_mem hkv
  unfold buildRow at h
  obtain ⟨mid, hs, ht⟩ := foldlM_option_append _ s (kv :: t) _ _ h
  rw [foldlM_option_cons] at ht
  have hstep : processColumn raw revenueId mid kv =
      some (alistInsert mid.1 "Free Cash Flow" (.num 800), mid.2) := by
    unfold processColumn
    rw [if_pos hname, calcFreeCashFlow_computes raw co cx h6 h21 hpa hpb mid.1]
    simp only [Option.map_some']
  rw [hstep] at ht
  simp only [Option.some_bind] at ht
  exact foldl_fcf800_preserved raw revenueId co cx h6 h21 hpa hpb t _ row cnt
    (alistFind?_insert_self mid.1 _ _) ht

theorem buildRow_margins_empty_aux (raw : List RawDataPoint) (revenueId : ℤ)
    (mgid : ℤ) (hcx : firstMatch raw 2021 = none)
    (hmid : firstMatch raw mgid = none) :
    ∀ (schema : List (String × ℤ)) (acc : Row × ℕ) (row : Row) (cnt : ℕ),
      (schema.map Prod.fst).Nodup →
      ("% Free Cash Flow Margins", mgid) ∈ schema →
      alistFind? acc.1 "Free Cash Flow" = none →
      List.foldlM (processColumn raw revenueId) acc schema = some (row, cnt) →
      alistFind? row "% Free Cash Flow Margins" = some .empty := by
  intro schema
  induction schema with
  | nil => intro acc row cnt _ hmem; cases hmem
  | cons kv rest ih =>
    intro acc row cnt hnd hmem hn h
    rw [foldlM_option_cons] at h
    simp only [List.map_cons, List.nodup_cons] at hnd
    rcases List.mem_cons.mp hmem with heq | hmem'
    · obtain rfl := heq.symm
      rw [processColumn_absent raw revenueId acc _ mgid (by decide)
        (fun hand => by simp [hn] at hand) hmid] at h
      simp only [Option.some_bind] at h
      rw [foldl_processColumn_find_not_mem raw revenueId rest _ row cnt _ hnd.1 h]
      exact alistFind?_insert_self acc.1 _ .empty
    · cases hs : processColumn raw revenueId acc kv with
      | none => rw [hs] at h; cases h
      | some acc₂ =>
        rw [hs] at h
        simp only [Option.some_bind] at h
        exact ih acc₂ row cnt hnd.2 hmem'
          (processColumn_fcf_none_preserved raw revenueId acc acc₂ kv hcx hs hn) h

/-! ## Claim C3 -/

/-- C3: for any fiscal period whose raw data contains cash-from-operations
1000 and capital-expenditure -200 under their fixed identifiers (2006 and
2021), the normalizer stores 800 under "Free Cash Flow"; and for any
period where the capex identifier is absent, no "Free Cash Flow" key is
written, the free-cash-flow computation returns the row unchanged instead
of raising, and the "% Free Cash Flow Margins" pseudo-field ends up as
the empty-string sentinel (no numeric value) for that row. -/
theorem claim_C3_free_cash_flow :
    (∀ (schema : List (String × ℤ)) (raw : List RawDataPoint) (year : FieldVal)
       (revenueId : ℤ) (co cx : RawDataPoint) (row : Row) (cnt : ℕ),
      firstMatch raw 2006 = some co → firstMatch raw 2021 = some cx →
      parseDecimal co.dataitemvalue = some 1000 →
      parseDecimal cx.dataitemvalue = some (-200) →
      "Free Cash Flow" ∈ schema.map Prod.fst →
      buildRow schema raw year revenueId = some (row, cnt) →
      alistFind? row "Free Cash Flow" = some (.num 800)) ∧
    (∀ (schema : List (String × ℤ)) (raw : List RawDataPoint) (year : FieldVal)
       (revenueId : ℤ) (row : Row) (cnt : ℕ),
      firstMatch raw 2021 = none →
      buildRow schema raw year revenueId = some (row, cnt) →
      alistFind? row "Free Cash Flow" = none ∧
      (∀ r : Row, calcFreeCashFlow raw r = some r) ∧
      (∀ mgid : ℤ, (schema.map Prod.fst).Nodup →
        ("% Free Cash Flow Margins", mgid) ∈ schema →
        firstMatch raw mgid = none →
        alistFind? row "% Free Cash Flow Margins" = some .empty)) := by
  constructor
  · intro schema raw year revenueId co cx row cnt h6 h21 hpa hpb hmem h
    exact buildRow_fcf_computed raw revenueId co cx h6 h21 hpa hpb schema year
      row cnt hmem h
  · intro schema raw year revenueId row cnt hcx h
    unfold buildRow at h
    refine ⟨?_, fun r => calcFreeCashFlow_skip raw hcx r, ?_⟩
    · exact foldl_fcf_none raw revenueId hcx schema _ row cnt
        (by simp [alistFind?]) h
    · intro mgid hnd hmem hmid
      exact buildRow_margins_empty_aux raw revenueId mgid hcx hmid schema _
        row cnt hnd hmem (by simp [alistFind?]) h


/-- Witness for C3 at a concrete schema and period. -/
theorem claim_C3_free_cash_flow_witness :
    alistFind? rowCashFlow "Free Cash Flow" = some (.num 800) ∧
    (alistFind? rowCashFlowNoCapex "Free Cash Flow" = none ∧
      (∀ r : Row, calcFreeCashFlow rawCashFlowNoCapex r = some r) ∧
      (∀ mgid : ℤ, (schemaCashFlow.map Prod.fst).Nodup →
        ("% Free Cash Flow Margins", mgid) ∈ schemaCashFlow →
        firstMatch rawCashFlowNoCapex mgid = none →
        alistFind? rowCashFlowNoCapex "% Free Cash Flow Margins" =
          some .empty)) :=
  ⟨claim_C3_free_cash_flow.1 schemaCashFlow rawCashFlow (.num 2023) 5
      ⟨1, 2006, "1000"⟩ ⟨1, 2021, "-200"⟩ rowCashFlow 0 (by decide) (by decide)
      (by decide) (by decide) (by decide) (by decide),
   claim_C3_free_cash_flow.2 schemaCashFlow rawCashFlowNoCapex (.num 2023) 5
      rowCashFlowNoCapex 0 (by decide) (by decide)⟩

/-! ## Claim C6 -/

/-- C6 counterexample: the claim that the first alias present with a
non-empty value wins is false on the code.  In `rowZeroTotalDebt` the
first debt alias `"Total Debt "` is present with the non-empty numeric
value 0, yet the Python truthiness test skips it and the debt component
resolves to the `"Long-Term Debt"` value 500 instead. -/
theorem claim_C6_alias_order_counterexample :
    alistFind? rowZeroTotalDebt "Total Debt " = some (.num 0) ∧
    alistFind? rowZeroTotalDebt "Long-Term Debt" = some (.num 500) ∧
    get_financial_value rowZeroTotalDebt debt_keys = some 500 ∧
    get_financial_value rowZeroTotalDebt debt_keys ≠ some 0 := by
  refine ⟨rfl, rfl, by decide, by decide⟩

/-- C6 amended: component resolution tries each alias list in its stated
order against a row, and the first alias present with a truthy value
(non-empty and non-zero) wins; in particular, for any balance-sheet row
in which `"Total Debt "` holds a non-zero numeric value, the debt
component resolves to that value even when `"Long-Term Debt"` is also
populated. -/
theorem claim_C6_alias_resolution_order :
    (∀ (row : Row) (ks1 ks2 : List String) (k : String) (v : FieldVal),
      (∀ k' ∈ ks1, ∀ v', alistFind? row k' = some v' → truthy v' = false) →
      alistFind? row k = some v → truthy v = true →
      firstTruthyKey row (ks1 ++ k :: ks2) = some v) ∧
    (∀ (row : Row) (q w : ℚ),
      alistFind? row "Total Debt " = some (.num q) → q ≠ 0 →
      alistFind? row "Long-Term Debt" = some (.num w) →
      get_financial_value row debt_keys = some q) := by
  constructor
  · intro row ks1 ks2 k v hks hk hv
    induction ks1 with
    | nil =>
      simp only [List.nil_append, firstTruthyKey, hk, hv, if_true]
    | cons k1 ks1 ih =>
      have ih' := ih fun k' hk' v' hv' => hks k' (List.mem_cons_of_mem k1 hk') v' hv'
      simp only [List.cons_append, firstTruthyKey]
      cases hf : alistFind? row k1 with
      | none => exact ih'
      | some v1 =>
        simp only [hks k1 (List.mem_cons_self k1 ks1) v1 hf,
          Bool.false_eq_true, if_false]
        exact ih'
  · intro row q w hq hq0 _hw
    unfold get_financial_value
    have hft : firstTruthyKey row debt_keys = some (.num q) := by
      unfold debt_keys
      simp only [firstTruthyKey, hq]
      simp [truthy, hq0]
    rw [hft]
    rfl

/-- Witness for the amended C6 at concrete rows: a falsy first alias is
skipped, and a truthy first alias wins over a populated later alias. -/
theorem claim_C6_alias_resolution_order_witness :
    firstTruthyKey rowZeroTotalDebt
      (["Total Debt "] ++ "Long-Term Debt" :: ["Short-Term Debt"]) =
      some (.num 500) ∧
    get_financial_value rowBothDebts debt_keys = some 300 :=
  ⟨claim_C6_alias_resolution_order.1 rowZeroTotalDebt ["Total Debt "]
      ["Short-Term Debt"] "Long-Term Debt" (.num 500)
      (by
        intro k' hk' v' hv'
        simp only [List.mem_singleton] at hk'
        subst hk'
        rw [show alistFind? rowZeroTotalDebt "Total Debt " = some (.num 0)
          from rfl] at hv'
        obtain rfl := Option.some.inj hv'
        decide)
      rfl (by decide),
   claim_C6_alias_resolution_order.2 rowBothDebts 300 500 rfl (by decide) rfl⟩

theorem maybeSet_get_ne {α : Type} (o : Option α) (f : α → CellVal)
    (rc c : ℕ × ℕ) (ws : Sheet) (h : c ≠ rc) :
    (maybeSet o f rc ws).get c = ws.get c := by
  cases o with
  | none => rfl
  | some x =>
    show alistFind? (alistInsert ws.cells rc (f x)) c = alistFind? ws.cells c
    exact alistFind?_insert_ne ws.cells rc c (f x) (fun e => h e.symm)

theorem maybeSet_get_self {α : Type} (o : Option α) (f : α → CellVal)
    (rc : ℕ × ℕ) (ws : Sheet) :
    (maybeSet o f rc ws).get rc =
      match o with
      | some x => some (f x)
      | none => ws.get rc := by
  cases o with
  | none => rfl
  | some x =>
    show alistFind? (alistInsert ws.cells rc (f x)) rc = some (f x)
    exact alistFind?_insert_self ws.cells rc (f x)

theorem upd_get_O12 (income balance valuation : Sheet) (stc : Option STCResult)
    (yfd : Option (List (String × String))) :
    (update_valuation_base_fields income balance valuation stc yfd).get cellO12 =
      match get_row_and_column_range income "% Operating Margins" 4 with
      | some p => some (.s ("=AVERAGE(income_statement!" ++ p.2 ++ ")/100"))
      | none => valuation.get cellO12 := by
  simp only [update_valuation_base_fields]
  rw [maybeSet_get_ne _ _ cellO28 cellO12 _ (by decide),
      maybeSet_get_ne _ _ cellO19 cellO12 _ (by decide),
      maybeSet_get_ne _ _ cellO15 cellO12 _ (by decide),
      maybeSet_get_ne _ _ cellO25 cellO12 _ (by decide),
      maybeSet_get_ne _ _ cellO23 cellO12 _ (by decide),
      maybeSet_get_ne _ _ cellO18 cellO12 _ (by decide),
      maybeSet_get_ne _ _ cellO16 cellO12 _ (by decide),
      maybeSet_get_ne _ _ cellO14 cellO12 _ (by decide),
      maybeSet_get_self]
  cases get_row_and_column_range income "% Operating Margins" 4 <;> rfl

theorem upd_get_O18 (income balance valuation : Sheet) (stc : Option STCResult)
    (yfd : Option (List (String × String))) :
    (update_valuation_base_fields income balance valuation stc yfd).get cellO18 =
      match get_latest_year_cell income "Total Revenues" with
      | some c => some (.s ("=income_statement!" ++ c))
      | none => valuation.get cellO18 := by
  simp only [update_valuation_base_fields]
  rw [maybeSet_get_ne _ _ cellO28 cellO18 _ (by decide),
      maybeSet_get_ne _ _ cellO19 cellO18 _ (by decide),
      maybeSet_get_ne _ _ cellO15 cellO18 _ (by decide),
      maybeSet_get_ne _ _ cellO25 cellO18 _ (by decide),
      maybeSet_get_ne _ _ cellO23 cellO18 _ (by decide),
      maybeSet_get_self]
  cases get_latest_year_cell income "Total Revenues" with
  | none =>
    rw [maybeSet_get_ne _ _ cellO16 cellO18 _ (by decide),
        maybeSet_get_ne _ _ cellO14 cellO18 _ (by decide),
        maybeSet_get_ne _ _ cellO12 cellO18 _ (by decide)]
  | some c => rfl

theorem upd_get_O14 (income balance valuation : Sheet) (stc : Option STCResult)
    (yfd : Option (List (String × String))) :
    (update_valuation_base_fields income balance valuation stc yfd).get cellO14 =
      match get_row_and_column_range income "Effective Tax Rate %" 4 with
      | some p => some (.s ("=AVERAGE(income_statement!" ++ p.2 ++ ")/100"))
      | none => valuation.get cellO14 := by
  simp only [update_valuation_base_fields]
  rw [maybeSet_get_ne _ _ cellO28 cellO14 _ (by decide),
      maybeSet_get_ne _ _ cellO19 cellO14 _ (by decide),
      maybeSet_get_ne _ _ cellO15 cellO14 _ (by decide),
      maybeSet_get_ne _ _ cellO25 cellO14 _ (by decide),
      maybeSet_get_ne _ _ cellO23 cellO14 _ (by decide),
      maybeSet_get_ne _ _ cellO18 cellO14 _ (by decide),
      maybeSet_get_ne _ _ cellO16 cellO14 _ (by decide),
      maybeSet_get_self]
  cases get_row_and_column_range income "Effective Tax Rate %" 4 with
  | none => rw [maybeSet_get_ne _ _ cellO12 cellO14 _ (by decide)]
  | some p => rfl

theorem upd_get_O16 (income balance valuation : Sheet) (stc : Option STCResult)
    (yfd : Option (List (String × String))) :
    (update_valuation_base_fields income balance valuation stc yfd).get cellO16 =
      match get_row_and_column_range income "Effective Tax Rate %" 4 with
      | some p => some (.s ("=AVERAGE(income_statement!" ++ p.2 ++ ")/100"))
      | none => valuation.get cellO16 := by
  simp only [update_valuation_base_fields]
  rw [maybeSet_get_ne _ _ cellO28 cellO16 _ (by decide),
      maybeSet_get_ne _ _ cellO19 cellO16 _ (by decide),
      maybeSet_get_ne _ _ cellO15 cellO16 _ (by decide),
      maybeSet_get_ne _ _ cellO25 cellO16 _ (by decide),
      maybeSet_get_ne _ _ cellO23 cellO16 _ (by decide),
      maybeSet_get_ne _ _ cellO18 cellO16 _ (by decide),
      maybeSet_get_self]
  cases get_row_and_column_range income "Effective Tax Rate %" 4 with
  | none =>
    rw [maybeSet_get_ne _ _ cellO14 cellO16 _ (by decide),
        maybeSet_get_ne _ _ cellO12 cellO16 _ (by decide)]
  | some p => rfl

theorem upd_get_O23 (income balance valuation : Sheet) (stc : Option STCResult)
    (yfd : Option (List (String × String))) :
    (update_valuation_base_fields income balance valuation stc yfd).get cellO23 =
      match
        (match get_ltm_cell balance "Total Debt" with
         | some c => some c
         | none => get_ltm_cell balance "Long-Term Debt") with
      | some c => some (.s ("=balancesheet_statement!" ++ c))
      | none => valuation.get cellO23 := by
  simp only [update_valuation_base_fields]
  rw [maybeSet_get_ne _ _ cellO28 cellO23 _ (by decide),
      maybeSet_get_ne _ _ cellO19 cellO23 _ (by decide),
      maybeSet_get_ne _ _ cellO15 cellO23 _ (by decide),
      maybeSet_get_ne _ _ cellO25 cellO23 _ (by decide),
      maybeSet_get_self]
  cases get_ltm_cell balance "Total Debt" with
  | some c => rfl
  | none =>
    cases get_ltm_cell balance "Long-Term Debt" with
    | some c => rfl
    | none =>
      rw [maybeSet_get_ne _ _ cellO18 cellO23 _ (by decide),
          maybeSet_get_ne _ _ cellO16 cellO23 _ (by decide),
          maybeSet_get_ne _ _ cellO14 cellO23 _ (by decide),
          maybeSet_get_ne _ _ cellO12 cellO23 _ (by decide)]

theorem upd_get_O25 (income balance valuation : Sheet) (stc : Option STCResult)
    (yfd : Option (List (String × String))) :
    (update_valuation_base_fields income balance valuation stc yfd).get cellO25 =
      match get_ltm_cell balance "Cash And Equivalents" with
      | some c => some (.s ("=balancesheet_statement!" ++ c))
      | none => valuation.get cellO25 := by
  simp only [update_valuation_base_fields]
  rw [maybeSet_get_ne _ _ cellO28 cellO25 _ (by decide),
      maybeSet_get_ne _ _ cellO19 cellO25 _ (by decide),
      maybeSet_get_ne _ _ cellO15 cellO25 _ (by decide),
      maybeSet_get_self]
  cases get_ltm_cell balance "Cash And Equivalents" with
  | some c => rfl
  | none =>
    rw [maybeSet_get_ne _ _ cellO23 cellO25 _ (by decide),
        maybeSet_get_ne _ _ cellO18 cellO25 _ (by decide),
        maybeSet_get_ne _ _ cellO16 cellO25 _ (by decide),
        maybeSet_get_ne _ _ cellO14 cellO25 _ (by decide),
        maybeSet_get_ne _ _ cellO12 cellO25 _ (by decide)]

theorem upd_get_O15 (income balance valuation : Sheet) (stc : Option STCResult)
    (yfd : Option (List (String × String))) :
    (update_valuation_base_fields income balance valuation stc yfd).get cellO15 =
      match stc with
      | some r => some (.n r.sales_to_capital_ratio)
      | none => valuation.get cellO15 := by
  simp only [update_valuation_base_fields]
  rw [maybeSet_get_ne _ _ cellO28 cellO15 _ (by decide),
      maybeSet_get_ne _ _ cellO19 cellO15 _ (by decide),
      maybeSet_get_self]
  cases stc with
  | some r => rfl
  | none =>
    rw [maybeSet_get_ne _ _ cellO25 cellO15 _ (by decide),
        maybeSet_get_ne _ _ cellO23 cellO15 _ (by decide),
        maybeSet_get_ne _ _ cellO18 cellO15 _ (by decide),
        maybeSet_get_ne _ _ cellO16 cellO15 _ (by decide),
        maybeSet_get_ne _ _ cellO14 cellO15 _ (by decide),
        maybeSet_get_ne _ _ cellO12 cellO15 _ (by decide)]

theorem upd_get_O19 (income balance valuation : Sheet) (stc : Option STCResult)
    (yfd : Option (List (String × String))) :
    (update_valuation_base_fields income balance valuation stc yfd).get cellO19 =
      match (yfd.bind fun d => alistFind? d "Current Price").bind parsePrice with
      | some q => some (.n q)
      | none => valuation.get cellO19 := by
  simp only [update_valuation_base_fields]
  rw [maybeSet_get_ne _ _ cellO28 cellO19 _ (by decide),
      maybeSet_get_self]
  cases (yfd.bind fun d => alistFind? d "Current Price").bind parsePrice with
  | some q => rfl
  | none =>
    rw [maybeSet_get_ne _ _ cellO15 cellO19 _ (by decide),
        maybeSet_get_ne _ _ cellO25 cellO19 _ (by decide),
        maybeSet_get_ne _ _ cellO23 cellO19 _ (by decide),
        maybeSet_get_ne _ _ cellO18 cellO19 _ (by decide),
        maybeSet_get_ne _ _ cellO16 cellO19 _ (by decide),
        maybeSet_get_ne _ _ cellO14 cellO19 _ (by decide),
        maybeSet_get_ne _ _ cellO12 cellO19 _ (by decide)]

theorem upd_get_O28 (income balance valuation : Sheet) (stc : Option STCResult)
    (yfd : Option (List (String × String))) :
    (update_valuation_base_fields income balance valuation stc yfd).get cellO28 =
      match (yfd.bind fun d => alistFind? d "Shares Outstanding").bind parseShares with
      | some q => some (.n q)
      | none => valuation.get cellO28 := by
  simp only [update_valuation_base_fields]
  rw [maybeSet_get_self]
  cases (yfd.bind fun d => alistFind? d "Shares Outstanding").bind parseShares with
  | some q => rfl
  | none =>
    rw [maybeSet_get_ne _ _ cellO19 cellO28 _ (by decide),
        maybeSet_get_ne _ _ cellO15 cellO28 _ (by decide),
        maybeSet_get_ne _ _ cellO25 cellO28 _ (by decide),
        maybeSet_get_ne _ _ cellO23 cellO28 _ (by decide),
        maybeSet_get_ne _ _ cellO18 cellO28 _ (by decide),
        maybeSet_get_ne _ _ cellO16 cellO28 _ (by decide),
        maybeSet_get_ne _ _ cellO14 cellO28 _ (by decide),
        maybeSet_get_ne _ _ cellO12 cellO28 _ (by decide)]


/-! ## Claim C8 -/

/-- C8: during template projection each of the eight target-cell lookups
acts in isolation: every target cell's final value is determined solely
by its own lookup — a failed lookup leaves exactly that cell at its
template-default value while every other target cell is still populated
normally from its own lookup, and the projection (a total function) never
aborts.  In particular, when the "% Operating Margins" row is absent from
the income sheet only O12 keeps its template value. -/
theorem claim_C8_template_cell_isolation :
    ∀ (income balance valuation : Sheet) (stc : Option STCResult)
      (yfd : Option (List (String × String))),
      (findRowIdx income "% Operating Margins" = none →
        (update_valuation_base_fields income balance valuation stc yfd).get
          cellO12 = valuation.get cellO12) ∧
      (update_valuation_base_fields income balance valuation stc yfd).get
          cellO12 =
        (match get_row_and_column_range income "% Operating Margins" 4 with
         | some p => some (.s ("=AVERAGE(income_statement!" ++ p.2 ++ ")/100"))
         | none => valuation.get cellO12) ∧
      (update_valuation_base_fields income balance valuation stc yfd).get
          cellO14 =
        (match get_row_and_column_range income "Effective Tax Rate %" 4 with
         | some p => some (.s ("=AVERAGE(income_statement!" ++ p.2 ++ ")/100"))
         | none => valuation.get cellO14) ∧
      (update_valuation_base_fields income balance valuation stc yfd).get
          cellO16 =
        (match get_row_and_column_range income "Effective Tax Rate %" 4 with
         | some p => some (.s ("=AVERAGE(income_statement!" ++ p.2 ++ ")/100"))
         | none => valuation.get cellO16) ∧
      (update_valuation_base_fields income balance valuation stc yfd).get
          cellO18 =
        (match get_latest_year_cell income "Total Revenues" with
         | some c => some (.s ("=income_statement!" ++ c))
         | none => valuation.get cellO18) ∧
      (update_valuation_base_fields income balance valuation stc yfd).get
          cellO23 =
        (match
          (match get_ltm_cell balance "Total Debt" with
           | some c => some c
           | none => get_ltm_cell balance "Long-Term Debt") with
         | some c => some (.s ("=balancesheet_statement!" ++ c))
         | none => valuation.get cellO23) ∧
      (update_valuation_base_fields income balance valuation stc yfd).get
          cellO25 =
        (match get_ltm_cell balance "Cash And Equivalents" with
         | some c => some (.s ("=balancesheet_statement!" ++ c))
         | none => valuation.get cellO25) ∧
      (update_valuation_base_fields income balance valuation stc yfd).get
          cellO15 =
        (match stc with
         | some r => some (.n r.sales_to_capital_ratio)
         | none => valuation.get cellO15) ∧
      (update_valuation_base_fields income balance valuation stc yfd).get
          cellO19 =
        (match (yfd.bind fun d => alistFind? d "Current Price").bind parsePrice
         with
         | some q => some (.n q)
         | none => valuation.get cellO19) ∧
      (update_valuation_base_fields income balance valuation stc yfd).get
          cellO28 =
        (match (yfd.bind fun d => alistFind? d "Shares Outstanding").bind
          parseShares with
         | some q => some (.n q)
         | none => valuation.get cellO28) := by
  intro income balance valuation stc yfd
  refine ⟨?_, upd_get_O12 income balance valuation stc yfd,
    upd_get_O14 income balance valuation stc yfd,
    upd_get_O16 income balance valuation stc yfd,
    upd_get_O18 income balance valuation stc yfd,
    upd_get_O23 income balance valuation stc yfd,
    upd_get_O25 income balance valuation stc yfd,
    upd_get_O15 income balance valuation stc yfd,
    upd_get_O19 income balance valuation stc yfd,
    upd_get_O28 income balance valuation stc yfd⟩
  intro h
  rw [upd_get_O12 income balance valuation stc yfd]
  unfold get_row_and_column_range
  rw [h]
  rfl

/-- Witness for C8: with the "% Operating Margins" row absent, O12 keeps
its template-default value while the seven other lookups populate their
cells normally. -/
theorem claim_C8_template_cell_isolation_witness :
    (update_valuation_base_fields sheetIncomeNoOpMargins sheetBalance4 sheetValu
        (some stcFixture) (some yfdFixture)).get cellO12 =
      sheetValu.get cellO12 ∧
    (update_valuation_base_fields sheetIncomeNoOpMargins sheetBalance4 sheetValu
        (some stcFixture) (some yfdFixture)).get cellO16 =
      some (.s "=AVERAGE(income_statement!B3:C3)/100") ∧
    (update_valuation_base_fields sheetIncomeNoOpMargins sheetBalance4 sheetValu
        (some stcFixture) (some yfdFixture)).get cellO18 =
      some (.s "=income_statement!C2") ∧
    (update_valuation_base_fields sheetIncomeNoOpMargins sheetBalance4 sheetValu
        (some stcFixture) (some yfdFixture)).get cellO23 =
      some (.s "=balancesheet_statement!D2") ∧
    (update_valuation_base_fields sheetIncomeNoOpMargins sheetBalance4 sheetValu
        (some stcFixture) (some yfdFixture)).get cellO25 =
      some (.s "=balancesheet_statement!D3") ∧
    (update_valuation_base_fields sheetIncomeNoOpMargins sheetBalance4 sheetValu
        (some stcFixture) (some yfdFixture)).get cellO15 =
      some (.n (5 / 2)) ∧
    (update_valuation_base_fields sheetIncomeNoOpMargins sheetBalance4 sheetValu
        (some stcFixture) (some yfdFixture)).get cellO19 =
      some (.n (12345 / 100)) ∧
    (update_valuation_base_fields sheetIncomeNoOpMargins sheetBalance4 sheetValu
        (some stcFixture) (some yfdFixture)).get cellO28 =
      some (.n 1500) := by
  have H := claim_C8_template_cell_isolation sheetIncomeNoOpMargins sheetBalance4
    sheetValu (some stcFixture) (some yfdFixture)
  refine ⟨H.1 (by decide), ?_, ?_, ?_, ?_, ?_, ?_, ?_⟩
  · rw [H.2.2.2.1]
    decide
  · rw [H.2.2.2.2.1]
    decide
  · rw [H.2.2.2.2.2.1]
    decide
  · rw [H.2.2.2.2.2.2.1]
    decide
  · rw [H.2.2.2.2.2.2.2.1]
    decide
  · rw [H.2.2.2.2.2.2.2.2.1]
    decide
  · rw [H.2.2.2.2.2.2.2.2.2]
    decide

/-! ## Claim C10 -/

/-- C10 counterexample: the claim is false on a sheet whose last populated
column is column 2.  `sheetTinyIncome` contains a first-column cell whose
trimmed text equals "Total Revenues" (row 1), but O18 is written as a
reference to `B1` — the sheet's *last* populated column — not to `A1`,
the column immediately before it (the code clamps
`latest_col = max_col` when `max_col <= 2`). -/
theorem claim_C10_revenue_cell_counterexample :
    findRowIdx sheetTinyIncome "Total Revenues" = some 1 ∧
    sheetTinyIncome.maxCol = 2 ∧
    (update_valuation_base_fields sheetTinyIncome sheetTinyIncome sheetValu none
        none).get cellO18 = some (.s "=income_statement!B1") ∧
    (update_valuation_base_fields sheetTinyIncome sheetTinyIncome sheetValu none
        none).get cellO18 ≠ some (.s "=income_statement!A1") := by
  refine ⟨by decide, rfl, by decide, by decide⟩

/-- C10 amended: for every income sheet containing a first-column cell
whose trimmed text equals "Total Revenues" (`ri` being the first matching
row), the revenue target cell O18 is written as a direct single-cell
cross-sheet reference to that row at the column immediately before the
sheet's last populated column when the sheet has more than two populated
columns, and at the last populated column itself otherwise. -/
theorem claim_C10_revenue_cell_reference :
    ∀ (income balance valuation : Sheet) (stc : Option STCResult)
      (yfd : Option (List (String × String))) (ri : ℕ),
      findRowIdx income "Total Revenues" = some ri →
      (2 < income.maxCol →
        (update_valuation_base_fields income balance valuation stc yfd).get
          cellO18 =
          some (.s ("=income_statement!" ++
            (colLetter (income.maxCol - 1) ++ toString ri)))) ∧
      (income.maxCol ≤ 2 →
        (update_valuation_base_fields income balance valuation stc yfd).get
          cellO18 =
          some (.s ("=income_statement!" ++
            (colLetter income.maxCol ++ toString ri)))) := by
  intro income balance valuation stc yfd ri hri
  have hl : get_latest_year_cell income "Total Revenues" =
      some (colLetter (if income.maxCol > 2 then income.maxCol - 1
        else income.maxCol) ++ toString ri) := by
    unfold get_latest_year_cell
    rw [hri]
    rfl
  constructor
  · intro hgt
    have hcol : (if income.maxCol > 2 then income.maxCol - 1
        else income.maxCol) = income.maxCol - 1 := if_pos hgt
    rw [upd_get_O18 income balance valuation stc yfd, hl, hcol]
  · intro hle
    have hcol : (if income.maxCol > 2 then income.maxCol - 1
        else income.maxCol) = income.maxCol := if_neg (by omega)
    rw [upd_get_O18 income balance valuation stc yfd, hl, hcol]

/-- Witness for the amended C10: a four-column sheet references the
second-to-last column, a two-column sheet references the last column. -/
theorem claim_C10_revenue_cell_reference_witness :
    (2 < sheetIncomeNoOpMargins.maxCol ∧
      (update_valuation_base_fields sheetIncomeNoOpMargins sheetBalance4
          sheetValu none none).get cellO18 =
        some (.s ("=income_statement!" ++
          (colLetter (sheetIncomeNoOpMargins.maxCol - 1) ++ toString 2)))) ∧
    (sheetTinyIncome.maxCol ≤ 2 ∧
      (update_valuation_base_fields sheetTinyIncome sheetBalance4 sheetValu none
          none).get cellO18 =
        some (.s ("=income_statement!" ++
          (colLetter sheetTinyIncome.maxCol ++ toString 1)))) :=
  ⟨⟨by decide,
    (claim_C10_revenue_cell_reference sheetIncomeNoOpMargins sheetBalance4
      sheetValu none none 2 (by decide)).1 (by decide)⟩,
   ⟨by decide,
    (claim_C10_revenue_cell_reference sheetTinyIncome sheetBalance4 sheetValu
      none none 1 (by decide)).2 (by decide)⟩⟩

theorem yoyStep_cases (prev acc : Row) (col : String) :
    yoyStep prev acc col = acc ∨
    (containsYoY col = true ∧ ∃ v, yoyStep prev acc col = alistInsert acc col v) := by
  unfold yoyStep
  by_cases hc : containsYoY col
  · rw [if_pos hc]
    dsimp only
    split
    · split
      · split
        · split
          · exact Or.inr ⟨hc, _, rfl⟩
          · exact Or.inl rfl
        · exact Or.inl rfl
      · exact Or.inl rfl
    · exact Or.inl rfl
  · rw [if_neg hc]
    exact Or.inl rfl

theorem yoyStep_find_ne (prev acc : Row) (col k : String) (hk : k ≠ col) :
    alistFind? (yoyStep prev acc col) k = alistFind? acc k := by
  rcases yoyStep_cases prev acc col with h | ⟨_, v, h⟩
  · rw [h]
  · rw [h]
    exact alistFind?_insert_ne acc col k v (fun e => hk e.symm)

theorem yoyStep_find_not_yoy (prev acc : Row) (col k : String)
    (hk : containsYoY k = false) :
    alistFind? (yoyStep prev acc col) k = alistFind? acc k := by
  rcases yoyStep_cases prev acc col with h | ⟨hcol, v, h⟩
  · rw [h]
  · rw [h]
    refine alistFind?_insert_ne acc col k v ?_
    intro e
    rw [e, hk] at hcol
    cases hcol

theorem foldl_yoyStep_find_not_yoy (prev : Row) :
    ∀ (cols : List String) (acc : Row) (k : String), containsYoY k = false →
      alistFind? (cols.foldl (yoyStep prev) acc) k = alistFind? acc k := by
  intro cols
  induction cols with
  | nil => intro acc k _; rfl
  | cons c cols ih =>
    intro acc k hk
    rw [List.foldl_cons, ih (yoyStep prev acc c) k hk,
      yoyStep_find_not_yoy prev acc c k hk]

theorem foldl_yoyStep_find_not_mem (prev : Row) :
    ∀ (cols : List String) (acc : Row) (k : String), k ∉ cols →
      alistFind? (cols.foldl (yoyStep prev) acc) k = alistFind? acc k := by
  intro cols
  induction cols with
  | nil => intro acc k _; rfl
  | cons c cols ih =>
    intro acc k hk
    simp only [List.mem_cons, not_or] at hk
    rw [List.foldl_cons, ih (yoyStep prev acc c) k hk.2,
      yoyStep_find_ne prev acc c k hk.1]

theorem yoyRow_find_not_yoy (prev cur : Row) (k : String)
    (hk : containsYoY k = false) :
    alistFind? (yoyRow prev cur) k = alistFind? cur k :=
  foldl_yoyStep_find_not_yoy prev (cur.map Prod.fst) cur k hk

theorem yoyRow_computes (prev cur : Row) (col base : String) (p c : ℚ)
    (hcol : containsYoY col = true) (hbase : stripYoY col = base)
    (hbnotyoy : containsYoY base = false)
    (hnodup : (cur.map Prod.fst).Nodup) (hmem : col ∈ cur.map Prod.fst)
    (hprev : alistFind? prev base = some (.num p))
    (hcur : alistFind? cur base = some (.num c)) :
    (p ≠ 0 → c ≠ 0 →
      alistFind? (yoyRow prev cur) col =
        some (.num (pyRound 2 ((c - p) / |p| * 100)))) ∧
    (p = 0 → alistFind? (yoyRow prev cur) col = alistFind? cur col) := by
  obtain ⟨k1, k2, heq⟩ := List.append_of_mem hmem
  have hnd : col ∉ k1 ∧ col ∉ k2 := by
    rw [heq] at hnodup
    have h2 := (List.nodup_cons.mp (List.nodup_middle.mp hnodup)).1
    exact ⟨fun hm => h2 (List.mem_append_left _ hm),
      fun hm => h2 (List.mem_append_right _ hm)⟩
  unfold yoyRow
  rw [heq, List.foldl_append]
  have hacc1base :
      alistFind? (List.foldl (yoyStep prev) cur k1) base = some (.num c) := by
    rw [foldl_yoyStep_find_not_yoy prev k1 cur base hbnotyoy, hcur]
  have hacc1col :
      alistFind? (List.foldl (yoyStep prev) cur k1) col = alistFind? cur col :=
    foldl_yoyStep_find_not_mem prev k1 cur col hnd.1
  constructor
  · intro hp hc
    have hstep : ∀ acc : Row, alistFind? acc base = some (.num c) →
        yoyStep prev acc col =
          alistInsert acc col (.num (pyRound 2 ((c - p) / |p| * 100))) := by
      intro acc hacc
      unfold yoyStep
      simp only [hcol, if_true, hbase, hacc, hprev]
      simp [truthy, fieldToRat, hp, hc]
    rw [List.foldl_cons, hstep _ hacc1base,
      foldl_yoyStep_find_not_mem prev k2 _ col hnd.2]
    exact alistFind?_insert_self _ col _
  · intro hp0
    subst hp0
    have hstep : ∀ acc : Row, alistFind? acc base = some (.num c) →
        yoyStep prev acc col = acc := by
      intro acc hacc
      unfold yoyStep
      simp only [hcol, if_true, hbase, hacc, hprev]
      simp [truthy]
    rw [List.foldl_cons, hstep _ hacc1base,
      foldl_yoyStep_find_not_mem prev k2 _ col hnd.2, hacc1col]

theorem yoyGo_shape :
    ∀ (mid : List Row) (prev a b : Row) (post : List Row), post ≠ [] →
      ∃ (pre' : List Row) (a' : Row),
        yoyGo prev (mid ++ a :: b :: post) =
          pre' ++ a' :: yoyRow a' b :: yoyGo (yoyRow a' b) post ∧
        pre'.length = mid.length ∧
        (∀ k, containsYoY k = false → alistFind? a' k = alistFind? a k) := by
  intro mid
  induction mid with
  | nil =>
    intro prev a b post hpost
    refine ⟨[], yoyRow prev a, ?_, rfl,
      fun k hk => yoyRow_find_not_yoy prev a k hk⟩
    cases post with
    | nil => exact absurd rfl hpost
    | cons q qs => rfl
  | cons m mid ih =>
    intro prev a b post hpost
    obtain ⟨pre'', a', hsh, hlen, hpres⟩ := ih (yoyRow prev m) a b post hpost
    refine ⟨yoyRow prev m :: pre'', a', ?_, by simp [hlen], hpres⟩
    have hgo : yoyGo prev (m :: (mid ++ a :: b :: post)) =
        yoyRow prev m :: yoyGo (yoyRow prev m) (mid ++ a :: b :: post) := by
      cases hm : mid ++ a :: b :: post with
      | nil => simp at hm
      | cons x xs => rfl
    rw [List.cons_append, hgo, hsh]
    rfl

theorem calculate_yoy_metrics_shape :
    ∀ (pre : List Row) (a b : Row) (post : List Row), post ≠ [] →
      ∃ (pre' : List Row) (a' : Row),
        calculate_yoy_metrics (pre ++ a :: b :: post) =
          pre' ++ a' :: yoyRow a' b :: yoyGo (yoyRow a' b) post ∧
        pre'.length = pre.length ∧
        (∀ k, containsYoY k = false → alistFind? a' k = alistFind? a k) := by
  intro pre a b post hpost
  cases pre with
  | nil =>
    refine ⟨[], a, ?_, rfl, fun k _ => rfl⟩
    cases post with
    | nil => exact absurd rfl hpost
    | cons q qs => rfl
  | cons p0 pre2 =>
    obtain ⟨pre'', a', hsh, hlen, hpres⟩ := yoyGo_shape pre2 p0 a b post hpost
    refine ⟨p0 :: pre'', a', ?_, by simp [hlen], hpres⟩
    show p0 :: yoyGo p0 (pre2 ++ a :: b :: post) = _
    rw [hsh]
    rfl

/-! ## Claim C2 -/

/-- C2 counterexample: the claim fails when the second of the two
consecutive rows is the last row of the list.  With base values 100 then
150 in a two-row list, the `data_list[:-1]` slice iterates only index 0
and the `idx > 0` guard skips it, so the second row's "Revenues YoY"
field stays at the empty-string sentinel instead of becoming 50. -/
theorem claim_C2_yoy_counterexample :
    alistFind? rowYoYa "Revenues" = some (.num 100) ∧
    alistFind? rowYoYb "Revenues" = some (.num 150) ∧
    (calculate_yoy_metrics [rowYoYa, rowYoYb]).map
        (fun r => alistFind? r "Revenues YoY") =
      [some .empty, some .empty] ∧
    (calculate_yoy_metrics [rowYoYa, rowYoYb]).map
        (fun r => alistFind? r "Revenues YoY") ≠
      [some .empty, some (.num 50)] := by
  refine ⟨rfl, rfl, by decide, by decide⟩

/-- C2 amended: after the year-over-year pass, for two consecutive rows
at positions `i` and `i+1` whose base field holds numeric values `p` then
`c`, provided the second row is not the last row of the list (rows after
it exist), the second row's YoY field is set to
`((c - p) / |p|) * 100` rounded to 2 decimal places whenever `p` and `c`
are both non-zero, and is left unchanged when the previous value `p` is
zero (no exception is raised — the pass is a total function). -/
theorem claim_C2_yoy_metrics :
    ∀ (pre post : List Row) (a b : Row) (col base : String) (p c : ℚ),
      post ≠ [] →
      containsYoY col = true → stripYoY col = base →
      containsYoY base = false →
      (b.map Prod.fst).Nodup → col ∈ b.map Prod.fst →
      alistFind? a base = some (.num p) → alistFind? b base = some (.num c) →
      ∃ (pre' rest' : List Row) (a' b' : Row),
        calculate_yoy_metrics (pre ++ a :: b :: post) =
          pre' ++ a' :: b' :: rest' ∧
        pre'.length = pre.length ∧
        (p ≠ 0 → c ≠ 0 →
          alistFind? b' col = some (.num (pyRound 2 ((c - p) / |p| * 100)))) ∧
        (p = 0 → alistFind? b' col = alistFind? b col) := by
  intro pre post a b col base p c hpost hcol hbase hbnotyoy hnodup hmem ha hb
  obtain ⟨pre', a', hsh, hlen, hpres⟩ :=
    calculate_yoy_metrics_shape pre a b post hpost
  have hprev : alistFind? a' base = some (.num p) := by
    rw [hpres base hbnotyoy, ha]
  have hc := yoyRow_computes a' b col base p c hcol hbase hbnotyoy hnodup hmem
    hprev hb
  exact ⟨pre', yoyGo (yoyRow a' b) post, a', yoyRow a' b, hsh, hlen, hc.1, hc.2⟩

/-- Witness for the amended C2: base values 100 then 150 give a YoY of
50, values 100 then -50 give -150, and a zero previous value leaves the
YoY field unchanged. -/
theorem claim_C2_yoy_metrics_witness :
    (∃ (pre' rest' : List Row) (a' b' : Row),
      calculate_yoy_metrics [rowYoYa, rowYoYb, rowYoYlast] =
        pre' ++ a' :: b' :: rest' ∧
      pre'.length = 0 ∧
      alistFind? b' "Revenues YoY" = some (.num 50)) ∧
    (∃ (pre' rest' : List Row) (a' b' : Row),
      calculate_yoy_metrics [rowYoYa, rowYoYneg, rowYoYlast] =
        pre' ++ a' :: b' :: rest' ∧
      pre'.length = 0 ∧
      alistFind? b' "Revenues YoY" = some (.num (-150))) ∧
    (∃ (pre' rest' : List Row) (a' b' : Row),
      calculate_yoy_metrics [rowYoYzero, rowYoYb, rowYoYlast] =
        pre' ++ a' :: b' :: rest' ∧
      pre'.length = 0 ∧
      alistFind? b' "Revenues YoY" = alistFind? rowYoYb "Revenues YoY") := by
  refine ⟨?_, ?_, ?_⟩
  · obtain ⟨pre', rest', a', b', h1, h2, h3, _⟩ :=
      claim_C2_yoy_metrics [] [rowYoYlast] rowYoYa rowYoYb "Revenues YoY"
        "Revenues" 100 150 (by decide) (by decide) (by decide) (by decide)
        (by decide) (by decide) rfl rfl
    exact ⟨pre', rest', a', b', h1, h2,
      (h3 (by decide) (by decide)).trans (by decide)⟩
  · obtain ⟨pre', rest', a', b', h1, h2, h3, _⟩ :=
      claim_C2_yoy_metrics [] [rowYoYlast] rowYoYa rowYoYneg "Revenues YoY"
        "Revenues" 100 (-50) (by decide) (by decide) (by decide) (by decide)
        (by decide) (by decide) rfl rfl
    exact ⟨pre', rest', a', b', h1, h2,
      (h3 (by decide) (by decide)).trans (by decide)⟩
  · obtain ⟨pre', rest', a', b', h1, h2, _, h4⟩ :=
      claim_C2_yoy_metrics [] [rowYoYlast] rowYoYzero rowYoYb "Revenues YoY"
        "Revenues" 0 150 (by decide) (by decide) (by decide) (by decide)
        (by decide) (by decide) rfl rfl
    exact ⟨pre', rest', a', b', h1, h2, h4 rfl⟩

end TikrScraper
